import Mathlib

/-!
Verification of the project-board gateway module
(`src/github/operations/projects.ts`) of the GitHub MCP server.

The module bridges two object models:
* a current ("Projects V2") model reached through the GitHub GraphQL API, and
* a legacy ("classic") model reached through the REST API.

We embed the module shallowly.  JavaScript/JSON values are modelled by the
inductive type `Json` (with a distinct `undefined` value for JavaScript
`undefined`, since `JSON.stringify` drops `undefined`-valued keys while it
keeps `null` ones, and zod treats the two differently).  Network transports
are modelled by a list of scripted responses; every operation is a state
function that consumes scripted responses and logs each outbound call, so
that call counts, call order and dispatched variables are observable.
-/

/-- A JSON/JavaScript value.  `undefined` models JavaScript `undefined`
(distinct from JSON `null`): zod `.optional()` accepts `undefined` but not
`null`, `.nullable()` the reverse, and `JSON.stringify` drops object
entries whose value is `undefined`. -/
inductive Json where
  | null
  | undefined
  | bool (b : Bool)
  | num (n : Int)
  | str (s : String)
  | arr (elems : List Json)
  | obj (fields : List (String × Json))

/-- JavaScript member access `v.k`: field lookup on objects, `undefined`
for a missing key or a non-object receiver.  (On a `null`/`undefined`
receiver JavaScript throws a TypeError; the module only dereferences
values it has already truthiness-checked or schema-parsed, so the
difference is not observable in the properties proved here.) -/
def Json.get (v : Json) (k : String) : Json :=
  match v with
  | .obj fields =>
    match fields.lookup k with
    | some x => x
    | none => .undefined
  | _ => .undefined

/-- JavaScript truthiness of a value. -/
def Json.truthy : Json → Bool
  | .null => false
  | .undefined => false
  | .bool b => b
  | .num n => n != 0
  | .str s => s != ""
  | .arr _ => true
  | .obj _ => true

def Json.isUndefined : Json → Bool
  | .undefined => true
  | _ => false

/-! ## The GraphQL response envelope (`GraphQLResponseSchema`)

`githubGraphQLRequest` (projects.ts, first document, lines 26-68) parses
every GraphQL response body against
`z.object({ data: z.record(z.unknown()).nullable(),
            errors: z.array(GraphQLErrorSchema).optional() })`.
We embed the zod schemas as parsers from `Json`; unknown object keys are
accepted (zod strips them), required keys must be present, `.optional()`
accepts only a missing/`undefined` key, `.nullable()` only `null`. -/

structure GqlLocation where
  line : Int
  column : Int

inductive GqlPathSeg where
  | str (s : String)
  | num (n : Int)

/-- One element of the `errors` list, per `GraphQLErrorSchema`:
`{ message: string, locations?: {line,column}[], path?: (string|number)[],
extensions?: record }`. -/
structure GqlError where
  message : String
  locations : Option (List GqlLocation)
  path : Option (List GqlPathSeg)
  extensions : Option (List (String × Json))

/-- zod `z.object({line: z.number(), column: z.number()})`. -/
def parseGqlLocation (j : Json) : Option GqlLocation :=
  match j with
  | .obj _ =>
    match j.get ("line"), j.get ("column") with
    | .num l, .num c => some ⟨l, c⟩
    | _, _ => none
  | _ => none

/-- zod `z.string().or(z.number())`. -/
def parseGqlPathSeg (j : Json) : Option GqlPathSeg :=
  match j with
  | .str s => some (.str s)
  | .num n => some (.num n)
  | _ => none

/-- zod `z.record(z.unknown())`: any object. -/
def parseRecord (j : Json) : Option (List (String × Json)) :=
  match j with
  | .obj fs => some fs
  | _ => none

/-- An `.optional()` field: a missing/`undefined` key parses to `none`,
anything else must satisfy the inner parser. -/
def parseOptField (j : Json) (k : String) (p : Json → Option α) :
    Option (Option α) :=
  match j.get k with
  | .undefined => some none
  | v => (p v).map some

/-- zod `GraphQLErrorSchema.safeParse`. -/
def parseGqlError (j : Json) : Option GqlError :=
  match j with
  | .obj _ =>
    match j.get ("message") with
    | .str m =>
      match parseOptField j ("locations")
          (fun v => match v with
            | .arr xs => xs.mapM parseGqlLocation
            | _ => none) with
      | some locs =>
        match parseOptField j ("path")
            (fun v => match v with
              | .arr xs => xs.mapM parseGqlPathSeg
              | _ => none) with
        | some pth =>
          match parseOptField j ("extensions") parseRecord with
          | some exts => some ⟨m, locs, pth, exts⟩
          | none => none
        | none => none
      | none => none
    | _ => none
  | _ => none

/-- zod `GraphQLResponseSchema.safeParse`: the envelope
`{ data: object-or-null, errors?: list }`.  The first component of a
successful parse is `none` when `data` is `null`; an absent `errors` key
parses to `[]` (the code only ever asks whether the list is non-empty, so
absent and present-but-empty are not distinguished downstream). -/
def parseGraphQLResponse (j : Json) : Option (Option Json × List GqlError) :=
  match j with
  | .obj _ =>
    let dataOk : Option (Option Json) :=
      match j.get ("data") with
      | .null => some none
      | .obj fs => some (some (.obj fs))
      | _ => none
    match dataOk with
    | none => none
    | some data? =>
      match j.get ("errors") with
      | .undefined => some (data?, [])
      | .arr xs =>
        match xs.mapM parseGqlError with
        | some errs => some (data?, errs)
        | none => none
      | _ => none
  | _ => none

/-! ## Errors thrown by the gateway -/

/-- The distinct failures an operation can surface.  Each constructor
retains the raw material the thrown `Error` is built from. -/
inductive OpError where
  /-- `GraphQLResponseSchema.safeParse` failed: malformed envelope; the
  raw response body is kept as context (projects.ts lines 39-49). -/
  | parseFailure (raw : Json)
  /-- the envelope carried a non-empty `errors` list: message built from
  the first error, the whole list retained (lines 52-57). -/
  | graphqlError (message : String) (errs : List GqlError)
  /-- `data: null` with no errors: the distinguished message of
  lines 59-63. -/
  | nullData (message : String)
  /-- a plain `throw new Error(message)` inside an operation. -/
  | opError (message : String)
  /-- a zod output-schema `.parse` threw. -/
  | validationError
  /-- the resource-style transport reported a non-2xx status. -/
  | httpError (status : Int) (body : Json)
  /-- the scripted transport had no response left (network failure). -/
  | noResponse

/-- The response-classification part of `githubGraphQLRequest`
(projects.ts lines 37-67): parse the envelope, fail on a non-empty error
list (message = first error's message, full list kept), fail on null
data, otherwise return the `data` object. -/
def githubGraphQLRequest (raw : Json) : Except OpError Json :=
  match parseGraphQLResponse raw with
  | none => .error (.parseFailure raw)
  | some (data?, errs) =>
    match errs with
    | e :: rest =>
      .error (.graphqlError (("GraphQL Error: ") ++ e.message) (e :: rest))
    | [] =>
      match data? with
      | none =>
        .error (.nullData
          ("GraphQL query returned null data. Check query validity and permissions."))
      | some d => .ok d

/-! ## The query-language transport

Each GraphQL document constant of the source gets one name; an operation
run logs every dispatched `(document, variables)` pair in order and
consumes one scripted response per dispatch. -/

/-- One GraphQL document constant of projects.ts. -/
inductive QueryDoc where
  | getOrgId
  | getRepoId
  | getRepoOwnerId
  | listOrgProjectsV2Query
  | createOrgProjectV2Mutation
  | listRepoProjectsV2Query
  | createRepoProjectV2Mutation
  | getProjectV2Query
  | updateProjectV2Mutation
  | listProjectFieldsQuery
  | listProjectItemsQuery
  | updateProjectItemFieldMutation
deriving DecidableEq

/-- `JSON.stringify({query, variables})` drops `undefined`-valued keys:
the variables actually on the wire. -/
def serializeVars (vars : List (String × Json)) : List (String × Json) :=
  vars.filter (fun p => !p.2.isUndefined)

/-- One outbound GraphQL call as dispatched (variables post-serialization;
the field is named `vars` because `variables` is reserved). -/
structure GqlCall where
  query : QueryDoc
  vars : List (String × Json)

/-- Transport state: scripted responses still pending, calls made so far. -/
structure GqlState where
  pending : List Json
  calls : List GqlCall

/-- A query-language operation: state in, outcome and state out.  The
call log survives failure, so aborted operations remain observable. -/
def OpM (α : Type) := GqlState → Except OpError α × GqlState

/-- `await` sequencing: run `x`; a thrown error aborts, a value feeds the
continuation.  The transport state (and with it the call log) threads
through either way. -/
def OpM.andThen (x : OpM α) (f : α → OpM β) : OpM β := fun s =>
  match x s with
  | (.error e, s1) => (.error e, s1)
  | (.ok a, s1) => f a s1

/-- Perform one GraphQL round trip: log the call, consume the next
scripted response, classify it with `githubGraphQLRequest`. -/
def dispatch (q : QueryDoc) (vars : List (String × Json)) : OpM Json :=
  fun s =>
    let logged := s.calls ++ [⟨q, serializeVars vars⟩]
    match s.pending with
    | [] => (.error .noResponse, ⟨[], logged⟩)
    | r :: rest => (githubGraphQLRequest r, ⟨rest, logged⟩)

/-- One round trip followed by pure post-processing of the data object
(the code after the `await` in each V2 function): the state is the same
whether the post-processing accepts or rejects. -/
def dispatchThen (q : QueryDoc) (vars : List (String × Json))
    (post : Json → Except OpError Json) : OpM Json := fun s =>
  match dispatch q vars s with
  | (.error e, s1) => (.error e, s1)
  | (.ok result, s1) => (post result, s1)

/-! ## Output schemas of the current (Projects V2) model

zod `.parse` on an output value either passes (stripping unknown keys) or
throws.  The claims are about acceptance, so every schema is embedded as
a boolean checker on `Json`. -/

/-- One or more characters, each a digit except a final terminator. -/
def digitsThenZ : List Char → Bool
  | [] => false
  | [c] => c == 'Z'
  | c :: rest => c.isDigit && digitsThenZ rest

/-- What may follow the seconds of a zod datetime: the terminator alone,
or a dot, at least one digit, and the terminator. -/
def datetimeTailOk : List Char → Bool
  | [c] => c == 'Z'
  | '.' :: c :: rest => c.isDigit && digitsThenZ (c :: rest)
  | _ => false

/-- zod `z.string().datetime()` (default options): the regex
`\d-4 - \d-2 - \d-2 T \d-2 : \d-2 : \d-2 (. \d+)? Z` anchored at both
ends, with no offset allowed. -/
def isDatetime (s : String) : Bool :=
  match s.toList with
  | c0 :: c1 :: c2 :: c3 :: c4 :: c5 :: c6 :: c7 :: c8 :: c9 :: c10 ::
    c11 :: c12 :: c13 :: c14 :: c15 :: c16 :: c17 :: c18 :: rest =>
      ([c0, c1, c2, c3, c5, c6, c8, c9, c11, c12, c14, c15, c17, c18].all
        Char.isDigit)
      && c4 == '-' && c7 == '-' && c10 == 'T' && c13 == ':' && c16 == ':'
      && datetimeTailOk rest
  | _ => false

/-- A required field that must be a string. -/
def reqStr (j : Json) (k : String) : Bool :=
  match j.get k with
  | .str _ => true
  | _ => false

/-- A required field that must be a string passing `z.string().datetime()`. -/
def reqDatetime (j : Json) (k : String) : Bool :=
  match j.get k with
  | .str s => isDatetime s
  | _ => false

/-- A required field that must be a number. -/
def reqNum (j : Json) (k : String) : Bool :=
  match j.get k with
  | .num _ => true
  | _ => false

/-- A required field that must be a boolean. -/
def reqBool (j : Json) (k : String) : Bool :=
  match j.get k with
  | .bool _ => true
  | _ => false

/-- `z.string().nullable()`: a required field, string or `null`. -/
def nullableStr (j : Json) (k : String) : Bool :=
  match j.get k with
  | .str _ => true
  | .null => true
  | _ => false

/-- `z.string().optional()`: absent/`undefined` or a string. -/
def optStr (j : Json) (k : String) : Bool :=
  match j.get k with
  | .undefined => true
  | .str _ => true
  | _ => false

def Json.isObj : Json → Bool
  | .obj _ => true
  | _ => false

/-- `GitHubProjectV2Schema` (projects.ts, first document, lines 74-95). -/
def checkGitHubProjectV2 (j : Json) : Bool :=
  j.isObj
  && reqStr j ("id") && reqStr j ("title") && reqNum j ("number")
  && reqStr j ("url") && reqBool j ("closed") && reqBool j ("public")
  && nullableStr j ("readme")
  && reqDatetime j ("createdAt") && reqDatetime j ("updatedAt")
  && (match j.get ("creator") with
      | .null => true
      | .obj _ =>
        reqStr (j.get ("creator")) ("login")
        && reqStr (j.get ("creator")) ("url")
        && optStr (j.get ("creator")) ("avatarUrl")
      | _ => false)
  && (match j.get ("owner") with
      | .obj _ => reqStr (j.get ("owner")) ("id")
      | _ => false)

/-- `PageInfoSchema` (lines 98-103). -/
def checkPageInfo (j : Json) : Bool :=
  j.isObj
  && nullableStr j ("endCursor") && reqBool j ("hasNextPage")
  && reqBool j ("hasPreviousPage") && nullableStr j ("startCursor")

/-- A connection body: `nodes` (a nullable array whose members satisfy
`checkNode`), `pageInfo`, `totalCount` — the shape shared by
`ProjectV2ConnectionSchema`, `ProjectV2FieldConnectionSchema` and
`ProjectV2ItemConnectionSchema` (lines 106-110, 148-152, 208-212). -/
def checkConnection (checkNode : Json → Bool) (j : Json) : Bool :=
  j.isObj
  && (match j.get ("nodes") with
      | .null => true
      | .arr xs => xs.all checkNode
      | _ => false)
  && checkPageInfo (j.get ("pageInfo"))
  && reqNum j ("totalCount")

/-- `ProjectV2ConnectionSchema` (lines 106-110). -/
def checkProjectV2Connection (j : Json) : Bool :=
  checkConnection checkGitHubProjectV2 j

/-- The `dataType` enum of `ProjectV2FieldCommonSchema` (lines 116-124). -/
def isFieldDataType (s : String) : Bool :=
  s == "TEXT" || s == "NUMBER" || s == "DATE" || s == "SINGLE_SELECT"
    || s == "ITERATION" || s == "ASSIGNEES"

/-- `ProjectV2FieldCommonSchema` (lines 113-127). -/
def checkFieldCommon (j : Json) : Bool :=
  j.isObj
  && reqStr j ("id") && reqStr j ("name")
  && (match j.get ("dataType") with
      | .str s => isFieldDataType s
      | _ => false)
  && reqDatetime j ("createdAt") && reqDatetime j ("updatedAt")

/-- `ProjectV2SingleSelectFieldOptionSchema` (lines 129-133). -/
def checkSingleSelectOption (j : Json) : Bool :=
  j.isObj && reqStr j ("id") && reqStr j ("name")

/-- `ProjectV2SingleSelectFieldSchema` (lines 135-138): the common shape
with `dataType` fixed to the single-select literal plus an `options`
array. -/
def checkSingleSelectField (j : Json) : Bool :=
  j.isObj
  && reqStr j ("id") && reqStr j ("name")
  && (match j.get ("dataType") with
      | .str s => s == "SINGLE_SELECT"
      | _ => false)
  && reqDatetime j ("createdAt") && reqDatetime j ("updatedAt")
  && (match j.get ("options") with
      | .arr xs => xs.all checkSingleSelectOption
      | _ => false)

/-- `ProjectV2FieldSchema` (lines 143-146): a union, tried in order. -/
def checkField (j : Json) : Bool :=
  checkSingleSelectField j || checkFieldCommon j

/-- `ProjectV2FieldConnectionSchema` (lines 148-152). -/
def checkFieldConnection (j : Json) : Bool :=
  checkConnection checkField j

/-- One entry of the item `fieldValues.nodes` list (lines 165-173):
`field` is an object with string `id` and `name`; `value` is
`z.unknown().optional()`, which accepts anything. -/
def checkFieldValueNode (j : Json) : Bool :=
  j.isObj
  && (match j.get ("field") with
      | .obj _ =>
        reqStr (j.get ("field")) ("id") && reqStr (j.get ("field")) ("name")
      | _ => false)

/-- The `content` union of `ProjectV2ItemSchema` (lines 178-205): an
Issue, a PullRequest, a DraftIssue (each discriminated by
`__typename` literal) or `null`; the whole field is `.optional()`. -/
def checkItemContent (j : Json) : Bool :=
  (j.isObj
    && (match j.get ("__typename") with
        | .str s => s == "Issue"
        | _ => false)
    && reqStr j ("id") && reqNum j ("number") && reqStr j ("title")
    && reqStr j ("url") && reqStr j ("state"))
  || (j.isObj
    && (match j.get ("__typename") with
        | .str s => s == "PullRequest"
        | _ => false)
    && reqStr j ("id") && reqNum j ("number") && reqStr j ("title")
    && reqStr j ("url") && reqStr j ("state"))
  || (j.isObj
    && (match j.get ("__typename") with
        | .str s => s == "DraftIssue"
        | _ => false)
    && reqStr j ("id") && reqStr j ("title") && reqStr j ("body"))
  || (match j with
      | .null => true
      | _ => false)

/-- `ProjectV2ItemSchema` (lines 156-206). -/
def checkProjectV2Item (j : Json) : Bool :=
  j.isObj
  && reqStr j ("id")
  && reqDatetime j ("createdAt") && reqDatetime j ("updatedAt")
  && reqBool j ("isArchived")
  && (match j.get ("project") with
      | .obj _ =>
        reqStr (j.get ("project")) ("id")
        && reqStr (j.get ("project")) ("title")
        && reqNum (j.get ("project")) ("number")
      | _ => false)
  && (match j.get ("type") with
      | .str s => s == "ISSUE" || s == "PULL_REQUEST" || s == "DRAFT_ISSUE"
      | _ => false)
  && (match j.get ("fieldValues") with
      | .undefined => true
      | .obj _ =>
        (match (j.get ("fieldValues")).get ("nodes") with
          | .null => true
          | .arr xs => xs.all checkFieldValueNode
          | _ => false)
        && reqNum (j.get ("fieldValues")) ("totalCount")
      | _ => false)
  && (match j.get ("content") with
      | .undefined => true
      | v => checkItemContent v)

/-- `ProjectV2ItemConnectionSchema` (lines 208-212). -/
def checkItemConnection (j : Json) : Bool :=
  checkConnection checkProjectV2Item j

/-! ## Current-model (Projects V2) operations

Each exported async function of the first document becomes an `OpM`
computation: one `dispatchThen` per GraphQL round trip, `OpM.andThen`
between dependent round trips.  Error message texts follow the source
except that contractions with an apostrophe are shortened, since only
the fact of failure matters here. -/

def optStrJson : Option String → Json
  | some s => .str s
  | none => .undefined

/-- `getOrganizationNodeId` (lines 674-679): resolve an organization
login to its opaque node id; not-found when the `organization` field of
the data is falsy. -/
def getOrganizationNodeId (orgLogin : String) : OpM Json :=
  dispatchThen .getOrgId [(("login" : String), Json.str orgLogin)]
    (fun result =>
      if (result.get ("organization")).truthy then
        .ok ((result.get ("organization")).get ("id"))
      else .error (.opError (("Organization not found: ") ++ orgLogin)))

/-- `getRepositoryNodeId` (lines 681-686). -/
def getRepositoryNodeId (ownerLogin repoName : String) : OpM Json :=
  dispatchThen .getRepoId
    [(("owner" : String), Json.str ownerLogin),
     (("name" : String), Json.str repoName)]
    (fun result =>
      if (result.get ("repository")).truthy then
        .ok ((result.get ("repository")).get ("id"))
      else
        .error (.opError
          ((("Repository not found: ") ++ ownerLogin)
            ++ (("/") ++ repoName))))

/-- `getRepositoryOwnerNodeId` (lines 689-694). -/
def getRepositoryOwnerNodeId (ownerLogin : String) : OpM Json :=
  dispatchThen .getRepoOwnerId [(("login" : String), Json.str ownerLogin)]
    (fun result =>
      if (result.get ("repositoryOwner")).truthy then
        .ok ((result.get ("repositoryOwner")).get ("id"))
      else
        .error (.opError (("Repository owner not found: ") ++ ownerLogin)))

structure ListOrgProjectsV2Options where
  orgLogin : String
  first : Option Int
  after : Option String

/-- `listOrgProjectsV2` (lines 702-716): one round trip with
`first: options.first ?? 30`, result validated against
`ProjectV2ConnectionSchema`. -/
def listOrgProjectsV2 (options : ListOrgProjectsV2Options) : OpM Json :=
  dispatchThen .listOrgProjectsV2Query
    [(("orgLogin" : String), Json.str options.orgLogin),
     (("first" : String), Json.num (options.first.getD 30)),
     (("after" : String), optStrJson options.after)]
    (fun result =>
      let conn := (result.get ("organization")).get ("projectsV2")
      if checkProjectV2Connection conn then .ok conn
      else .error .validationError)

structure CreateOrgProjectV2Options where
  orgLogin : String
  title : String

/-- The mutation half of `createOrgProjectV2`: dispatch the creation
with the resolved id, validate the returned project. -/
def createOrgProjectV2Finish (organizationId : Json) (title : String) :
    OpM Json :=
  dispatchThen .createOrgProjectV2Mutation
    [(("organizationId" : String), organizationId),
     (("title" : String), Json.str title)]
    (fun result =>
      let proj := (result.get ("createProjectV2")).get ("projectV2")
      if checkGitHubProjectV2 proj then .ok proj
      else .error .validationError)

/-- `createOrgProjectV2` (lines 721-735): resolve the organization node
id first, then run the creation mutation, then validate the returned
project. -/
def createOrgProjectV2 (options : CreateOrgProjectV2Options) : OpM Json :=
  OpM.andThen (getOrganizationNodeId options.orgLogin)
    (fun organizationId =>
      createOrgProjectV2Finish organizationId options.title)

structure ListRepoProjectsV2Options where
  ownerLogin : String
  repoName : String
  first : Option Int
  after : Option String

/-- `listRepoProjectsV2` (lines 741-755). -/
def listRepoProjectsV2 (options : ListRepoProjectsV2Options) : OpM Json :=
  dispatchThen .listRepoProjectsV2Query
    [(("ownerLogin" : String), Json.str options.ownerLogin),
     (("repoName" : String), Json.str options.repoName),
     (("first" : String), Json.num (options.first.getD 30)),
     (("after" : String), optStrJson options.after)]
    (fun result =>
      let conn := (result.get ("repository")).get ("projectsV2")
      if checkProjectV2Connection conn then .ok conn
      else .error .validationError)

structure CreateRepoProjectV2Options where
  ownerLogin : String
  repoName : String
  title : String

/-- The mutation half of `createRepoProjectV2`: dispatch the creation
with both resolved ids, validate the returned project. -/
def createRepoProjectV2Finish (ownerId repositoryId : Json)
    (title : String) : OpM Json :=
  dispatchThen .createRepoProjectV2Mutation
    [(("ownerId" : String), ownerId),
     (("repositoryId" : String), repositoryId),
     (("title" : String), Json.str title)]
    (fun result =>
      let proj := (result.get ("createProjectV2")).get ("projectV2")
      if checkGitHubProjectV2 proj then .ok proj
      else .error .validationError)

/-- `createRepoProjectV2` (lines 761-777): resolve the repository owner
node id, then the repository node id, then run the creation mutation. -/
def createRepoProjectV2 (options : CreateRepoProjectV2Options) : OpM Json :=
  OpM.andThen (getRepositoryOwnerNodeId options.ownerLogin)
    (fun ownerId =>
      OpM.andThen (getRepositoryNodeId options.ownerLogin options.repoName)
        (fun repositoryId =>
          createRepoProjectV2Finish ownerId repositoryId options.title))

/-- `getProjectV2` (lines 782-798): fetch the node by id, throw if the
node is falsy, validate against `GitHubProjectV2Schema`. -/
def getProjectV2 (projectId : String) : OpM Json :=
  dispatchThen .getProjectV2Query
    [(("projectId" : String), Json.str projectId)]
    (fun result =>
      if !(result.get ("node")).truthy then
        .error (.opError
          ((("Project V2 with Node ID ") ++ projectId)
            ++ (" not found or not accessible.")))
      else if checkGitHubProjectV2 (result.get ("node")) then
        .ok (result.get ("node"))
      else .error .validationError)

structure UpdateProjectV2Options where
  projectId : String
  title : Option String
  readme : Option String
  closed : Option Bool

/-- The `variables` object built by `updateProjectV2` (lines 807-810):
`projectId` always, each optional field only when provided (hence never
an explicit `null` for an absent field). -/
def updateVars (o : UpdateProjectV2Options) : List (String × Json) :=
  [(("projectId" : String), Json.str o.projectId)]
    ++ (match o.title with
        | some t => [(("title" : String), Json.str t)]
        | none => [])
    ++ (match o.readme with
        | some r => [(("readme" : String), Json.str r)]
        | none => [])
    ++ (match o.closed with
        | some b => [(("closed" : String), Json.bool b)]
        | none => [])

/-- The mutation branch of `updateProjectV2`. -/
def updateProjectV2Mutate (options : UpdateProjectV2Options) : OpM Json :=
  dispatchThen .updateProjectV2Mutation (updateVars options)
    (fun result =>
      let proj := (result.get ("updateProjectV2")).get ("projectV2")
      if checkGitHubProjectV2 proj then .ok proj
      else .error .validationError)

/-- `updateProjectV2` (lines 803-827): when only `projectId` ended up in
the variables, no mutation is sent and the current state is fetched via
`getProjectV2`; otherwise the update mutation is dispatched with exactly
the built variables. -/
def updateProjectV2 (options : UpdateProjectV2Options) : OpM Json :=
  if (updateVars options).length ≤ 1 then getProjectV2 options.projectId
  else updateProjectV2Mutate options

structure ListProjectFieldsV2Options where
  projectId : String
  first : Option Int
  after : Option String

/-- `listProjectFieldsV2` (lines 848-867): one round trip with the
default `first`; the result is returned after only a truthiness check —
the source says `// Temporary bypass validation` with a TODO to validate
against `ProjectV2FieldConnectionSchema`. -/
def listProjectFieldsV2 (options : ListProjectFieldsV2Options) : OpM Json :=
  dispatchThen .listProjectFieldsQuery
    [(("projectId" : String), Json.str options.projectId),
     (("first" : String), Json.num (options.first.getD 30)),
     (("after" : String), optStrJson options.after)]
    (fun result =>
      if !(result.get ("node")).truthy
          || !((result.get ("node")).get ("fields")).truthy then
        .error (.opError
          ((("Fields for Project V2 ") ++ options.projectId)
            ++ (" not found")))
      else .ok ((result.get ("node")).get ("fields")))

structure ListProjectItemsV2Options where
  projectId : String
  first : Option Int
  after : Option String

/-- `listProjectItemsV2` (lines 872-889): like the field listing but the
result is validated against `ProjectV2ItemConnectionSchema`. -/
def listProjectItemsV2 (options : ListProjectItemsV2Options) : OpM Json :=
  dispatchThen .listProjectItemsQuery
    [(("projectId" : String), Json.str options.projectId),
     (("first" : String), Json.num (options.first.getD 30)),
     (("after" : String), optStrJson options.after)]
    (fun result =>
      if !(result.get ("node")).truthy
          || !((result.get ("node")).get ("items")).truthy then
        .error (.opError
          ((("Items for Project V2 ") ++ options.projectId)
            ++ (" not found")))
      else if checkItemConnection ((result.get ("node")).get ("items")) then
        .ok ((result.get ("node")).get ("items"))
      else .error .validationError)

structure UpdateProjectItemFieldValueV2Options where
  projectId : String
  itemId : String
  fieldId : String
  value : Json

/-- `updateProjectItemFieldValueV2` (lines 929-942): dispatch the field
update mutation and return `result.updateProjectV2ItemFieldValue
.projectV2Item` as-is (no output schema is applied). -/
def updateProjectItemFieldValueV2
    (options : UpdateProjectItemFieldValueV2Options) : OpM Json :=
  dispatchThen .updateProjectItemFieldMutation
    [(("projectId" : String), Json.str options.projectId),
     (("itemId" : String), Json.str options.itemId),
     (("fieldId" : String), Json.str options.fieldId),
     (("value" : String), options.value)]
    (fun result =>
      .ok (Json.get (result.get ("updateProjectV2ItemFieldValue"))
        ("projectV2Item")))

/-! ## The resource-style (classic REST) transport

The helpers `githubRequest` and `buildUrl` live in `common/utils` which
is not part of this source tree; they are modelled from the spec
(sections 4.2 and 6). -/

/-- One outbound resource-style call as dispatched. -/
structure RestCall where
  url : String
  method : String
  headers : List (String × String)
  body : Option Json

/-- A scripted resource-style response: a parsed 2xx body, or a non-2xx
status with its body. -/
inductive RestResp where
  | success (body : Json)
  | failure (status : Int) (body : Json)

structure RestState where
  pending : List RestResp
  calls : List RestCall

def RestM (α : Type) := RestState → Except OpError α × RestState

/-- Modelled from the spec: `githubRequest` from `common/utils` is not in
the source tree.  Per spec section 4.2 it attaches method, headers and
body, performs the call, and returns the raw parsed body or throws on a
non-2xx status with the raw status and body preserved for
classification. -/
def githubRequest (url method : String) (headers : List (String × String))
    (body : Option Json) : RestM Json := fun s =>
  let logged := s.calls ++ [⟨url, method, headers, body⟩]
  match s.pending with
  | [] => (.error .noResponse, ⟨[], logged⟩)
  | .success j :: rest => (.ok j, ⟨rest, logged⟩)
  | .failure st b :: rest => (.error (.httpError st b), ⟨rest, logged⟩)

/-- Modelled from the spec: `buildUrl` from `common/utils` is not in the
source tree.  Per spec section 4.2 it appends to the base URL only those
query parameters that have defined values. -/
def buildUrl (base : String) (params : List (String × Option String)) :
    String :=
  let defined :=
    params.filterMap (fun p => p.2.map (fun v => (p.1 ++ ("=")) ++ v))
  match defined with
  | [] => base
  | _ => (base ++ ("?")) ++ String.intercalate ("&") defined

/-- The non-default content-negotiation header every classic projects
endpoint sends (`Accept: application/vnd.github.inertia-preview+json`). -/
def inertiaAccept : List (String × String) :=
  [(("Accept" : String), ("application/vnd.github.inertia-preview+json"))]

/-- After schema validation a string-typed field is a string; this is
its extraction. -/
def Json.asString : Json → String
  | .str s => s
  | _ => ""

/-- zod `z.array(p)`. -/
def checkArrayOf (p : Json → Bool) (j : Json) : Bool :=
  match j with
  | .arr xs => xs.all p
  | _ => false

/-- The classic `creator` object (shared by `GitHubProjectSchema` and
`GitHubProjectCardSchema`, second document). -/
def checkClassicCreator (j : Json) : Bool :=
  j.isObj
  && reqStr j ("login") && reqNum j ("id") && reqStr j ("avatar_url")
  && reqStr j ("url") && reqStr j ("html_url")

/-- `GitHubProjectSchema` (second document, lines 1082-1101).  The
classic schema uses plain `z.string()` timestamps, no datetime check. -/
def checkGitHubProject (j : Json) : Bool :=
  j.isObj
  && reqNum j ("id") && reqStr j ("node_id") && reqStr j ("url")
  && reqStr j ("html_url") && reqStr j ("columns_url") && reqStr j ("name")
  && nullableStr j ("body") && reqNum j ("number")
  && (match j.get ("state") with
      | .str s => s == "open" || s == "closed"
      | _ => false)
  && checkClassicCreator (j.get ("creator"))
  && reqStr j ("created_at") && reqStr j ("updated_at")

/-- `GitHubProjectColumnSchema` (lines 1103-1112). -/
def checkGitHubProjectColumn (j : Json) : Bool :=
  j.isObj
  && reqNum j ("id") && reqStr j ("node_id") && reqStr j ("url")
  && reqStr j ("project_url") && reqStr j ("cards_url") && reqStr j ("name")
  && reqStr j ("created_at") && reqStr j ("updated_at")

/-- `GitHubProjectCardSchema` (lines 1114-1132). -/
def checkGitHubProjectCard (j : Json) : Bool :=
  j.isObj
  && reqNum j ("id") && reqStr j ("node_id") && reqStr j ("url")
  && reqStr j ("column_url") && nullableStr j ("content_url")
  && reqStr j ("project_url")
  && checkClassicCreator (j.get ("creator"))
  && reqStr j ("created_at") && reqStr j ("updated_at")
  && nullableStr j ("note") && reqBool j ("archived")

/-! ## Classic (legacy model) operations

Every classic projects function of the second document attaches the
inertia preview `Accept` header.  Request bodies built from an options
object carry only the provided keys, because `JSON.stringify` drops
`undefined` values.  The recurring two-line source pattern
`const response = await githubRequest(...); return Schema.parse(response)`
becomes `requestChecked`, and `await` sequencing across helpers becomes
`RestM.andThen`. -/

/-- `await` sequencing on the resource-style transport. -/
def RestM.andThen (x : RestM α) (f : α → RestM β) : RestM β := fun s =>
  match x s with
  | (.error e, s1) => (.error e, s1)
  | (.ok a, s1) => f a s1

/-- One request followed by pure post-processing of its 2xx body (the
resource-side analogue of `dispatchThen`). -/
def requestThen (url method : String)
    (headers : List (String × String)) (body : Option Json)
    (post : Json → Except OpError α) : RestM α := fun s =>
  match githubRequest url method headers body s with
  | (.error e, s1) => (.error e, s1)
  | (.ok response, s1) => (post response, s1)

/-- One request followed by an output-schema `.parse` of its body. -/
def requestChecked (url method : String)
    (headers : List (String × String)) (body : Option Json)
    (check : Json → Bool) : RestM Json :=
  requestThen url method headers body
    (fun response =>
      if check response then .ok response else .error .validationError)

/-- One request whose response body is ignored (`Promise<void>`). -/
def requestUnit (url method : String)
    (headers : List (String × String)) (body : Option Json) :
    RestM Unit :=
  requestThen url method headers body (fun _ => .ok ())

structure ListProjectsOptions where
  state : Option String
  per_page : Option Int
  page : Option Int

/-- `listProjects` (second document, lines 1353-1371). -/
def listProjects (owner repo : String) (options : ListProjectsOptions) :
    RestM Json :=
  requestChecked
    (buildUrl
      (((("https://api.github.com/repos/") ++ owner) ++ (("/") ++ repo))
        ++ ("/projects"))
      [("state", options.state),
       ("per_page", options.per_page.map toString),
       ("page", options.page.map toString)])
    ("GET") inertiaAccept none (checkArrayOf checkGitHubProject)

structure CreateProjectOptions where
  name : String
  body : Option String

def createProjectBody (o : CreateProjectOptions) : Json :=
  .obj ([(("name" : String), Json.str o.name)]
    ++ (match o.body with
        | some b => [(("body" : String), Json.str b)]
        | none => []))

/-- `createProject` (lines 1373-1387). -/
def createProject (owner repo : String) (options : CreateProjectOptions) :
    RestM Json :=
  requestChecked
    (((("https://api.github.com/repos/") ++ owner) ++ (("/") ++ repo))
      ++ ("/projects"))
    ("POST") inertiaAccept (some (createProjectBody options))
    checkGitHubProject

/-- `projects.find(p => p.number === projectNumber)`. -/
def findByNumber (projects : Json) (n : Int) : Option Json :=
  match projects with
  | .arr xs =>
    xs.find? (fun p =>
      match p.get ("number") with
      | .num m => m == n
      | _ => false)
  | _ => none

/-- The second half of `getProject` and of `getOrgProject`: both fetch
the found project by its own `url` with the same header and validate it
against `GitHubProjectSchema`. -/
def projectUrlFetch (project : Json) : RestM Json :=
  requestChecked ((project.get ("url")).asString) ("GET") inertiaAccept
    none checkGitHubProject

/-- `getProject` (lines 1389-1409): list the repository projects with an
empty options object (no page or per_page), scan that one page for the
number, throw not-found if absent, otherwise fetch the project by its
own URL. -/
def getProject (owner repo : String) (projectNumber : Int) : RestM Json :=
  RestM.andThen (listProjects owner repo ⟨none, none, none⟩)
    (fun projects => fun s =>
      match findByNumber projects projectNumber with
      | none =>
        (.error (.opError
          (((("Project number ") ++ toString projectNumber)
            ++ (" not found in repository "))
            ++ ((owner ++ ("/")) ++ repo))), s)
      | some project => projectUrlFetch project s)

structure UpdateProjectOptions where
  name : Option String
  body : Option String
  state : Option String

def updateProjectBody (o : UpdateProjectOptions) : Json :=
  .obj ((match o.name with
        | some v => [(("name" : String), Json.str v)]
        | none => [])
    ++ (match o.body with
        | some v => [(("body" : String), Json.str v)]
        | none => [])
    ++ (match o.state with
        | some v => [(("state" : String), Json.str v)]
        | none => []))

/-- `updateProject` (lines 1411-1429): fetch the project through
`getProject` first, then PATCH its URL. -/
def updateProject (owner repo : String) (projectNumber : Int)
    (options : UpdateProjectOptions) : RestM Json :=
  RestM.andThen (getProject owner repo projectNumber)
    (fun project =>
      requestChecked ((project.get ("url")).asString) ("PATCH")
        inertiaAccept (some (updateProjectBody options))
        checkGitHubProject)

/-- `deleteProject` (lines 1431-1445): fetch through `getProject`, then
DELETE its URL. -/
def deleteProject (owner repo : String) (projectNumber : Int) :
    RestM Unit :=
  RestM.andThen (getProject owner repo projectNumber)
    (fun project =>
      requestUnit ((project.get ("url")).asString) ("DELETE")
        inertiaAccept none)

structure PageOptions where
  per_page : Option Int
  page : Option Int

/-- `listProjectColumns` (lines 1448-1469). -/
def listProjectColumns (owner repo : String) (projectNumber : Int)
    (options : PageOptions) : RestM Json :=
  RestM.andThen (getProject owner repo projectNumber)
    (fun project =>
      requestChecked
        (buildUrl ((project.get ("columns_url")).asString)
          [("per_page", options.per_page.map toString),
           ("page", options.page.map toString)])
        ("GET") inertiaAccept none
        (checkArrayOf checkGitHubProjectColumn))

/-- `createProjectColumn` (lines 1471-1489). -/
def createProjectColumn (owner repo : String) (projectNumber : Int)
    (name : String) : RestM Json :=
  RestM.andThen (getProject owner repo projectNumber)
    (fun project =>
      requestChecked ((project.get ("columns_url")).asString) ("POST")
        inertiaAccept (some (.obj [(("name" : String), Json.str name)]))
        checkGitHubProjectColumn)

/-- `updateProjectColumn` (lines 1491-1507). -/
def updateProjectColumn (columnId : Int) (name : String) : RestM Json :=
  requestChecked
    (("https://api.github.com/projects/columns/") ++ toString columnId)
    ("PATCH") inertiaAccept
    (some (.obj [(("name" : String), Json.str name)]))
    checkGitHubProjectColumn

/-- `deleteProjectColumn` (lines 1509-1521). -/
def deleteProjectColumn (columnId : Int) : RestM Unit :=
  requestUnit
    (("https://api.github.com/projects/columns/") ++ toString columnId)
    ("DELETE") inertiaAccept none

structure ListCardsOptions where
  archived_state : Option String
  per_page : Option Int
  page : Option Int

/-- `listProjectCards` (lines 1524-1544). -/
def listProjectCards (columnId : Int) (options : ListCardsOptions) :
    RestM Json :=
  requestChecked
    (buildUrl
      ((("https://api.github.com/projects/columns/") ++ toString columnId)
        ++ ("/cards"))
      [("archived_state", options.archived_state),
       ("per_page", options.per_page.map toString),
       ("page", options.page.map toString)])
    ("GET") inertiaAccept none (checkArrayOf checkGitHubProjectCard)

structure CreateCardOptions where
  note : Option String
  content_id : Option Int
  content_type : Option String

def createCardBody (o : CreateCardOptions) : Json :=
  .obj ((match o.note with
        | some v => [(("note" : String), Json.str v)]
        | none => [])
    ++ (match o.content_id with
        | some v => [(("content_id" : String), Json.num v)]
        | none => [])
    ++ (match o.content_type with
        | some v => [(("content_type" : String), Json.str v)]
        | none => []))

/-- `createProjectCard` (lines 1546-1562). -/
def createProjectCard (columnId : Int) (options : CreateCardOptions) :
    RestM Json :=
  requestChecked
    ((("https://api.github.com/projects/columns/") ++ toString columnId)
      ++ ("/cards"))
    ("POST") inertiaAccept (some (createCardBody options))
    checkGitHubProjectCard

structure UpdateCardOptions where
  note : Option String
  archived : Option Bool

def updateCardBody (o : UpdateCardOptions) : Json :=
  .obj ((match o.note with
        | some v => [(("note" : String), Json.str v)]
        | none => [])
    ++ (match o.archived with
        | some v => [(("archived" : String), Json.bool v)]
        | none => []))

/-- `updateProjectCard` (lines 1564-1580). -/
def updateProjectCard (cardId : Int) (options : UpdateCardOptions) :
    RestM Json :=
  requestChecked
    (("https://api.github.com/projects/cards/") ++ toString cardId)
    ("PATCH") inertiaAccept (some (updateCardBody options))
    checkGitHubProjectCard

/-- `deleteProjectCard` (lines 1582-1594). -/
def deleteProjectCard (cardId : Int) : RestM Unit :=
  requestUnit
    (("https://api.github.com/projects/cards/") ++ toString cardId)
    ("DELETE") inertiaAccept none

/-- The body built by `moveProjectCard` (lines 1604-1607): always
`position`; `column_id` only when `columnId` is truthy, so a zero column
id is dropped like an absent one. -/
def moveCardBody (position : String) (columnId : Option Int) : Json :=
  .obj ([(("position" : String), Json.str position)]
    ++ (match columnId with
        | some c =>
          if c != 0 then [(("column_id" : String), Json.num c)] else []
        | none => []))

/-- `moveProjectCard` (lines 1596-1616): POST to the card moves URL;
the response body is ignored (`Promise<void>`). -/
def moveProjectCard (cardId : Int) (position : String)
    (columnId : Option Int) : RestM Unit :=
  requestUnit
    ((("https://api.github.com/projects/cards/") ++ toString cardId)
      ++ ("/moves"))
    ("POST") inertiaAccept (some (moveCardBody position columnId))

/-- `listOrgProjects` (lines 1619-1636). -/
def listOrgProjects (org : String) (options : ListProjectsOptions) :
    RestM Json :=
  requestChecked
    (buildUrl
      ((("https://api.github.com/orgs/") ++ org) ++ ("/projects"))
      [("state", options.state),
       ("per_page", options.per_page.map toString),
       ("page", options.page.map toString)])
    ("GET") inertiaAccept none (checkArrayOf checkGitHubProject)

/-- `createOrgProject` (lines 1638-1651). -/
def createOrgProject (org : String) (options : CreateProjectOptions) :
    RestM Json :=
  requestChecked
    ((("https://api.github.com/orgs/") ++ org) ++ ("/projects"))
    ("POST") inertiaAccept (some (createProjectBody options))
    checkGitHubProject

/-- `getOrgProject` (lines 1653-1672): the organization-level analogue
of `getProject` with the same single-page scan. -/
def getOrgProject (org : String) (projectNumber : Int) : RestM Json :=
  RestM.andThen (listOrgProjects org ⟨none, none, none⟩)
    (fun projects => fun s =>
      match findByNumber projects projectNumber with
      | none =>
        (.error (.opError
          (((("Project number ") ++ toString projectNumber)
            ++ (" not found in organization ")) ++ org)), s)
      | some project => projectUrlFetch project s)

/-- `updateOrgProject` (lines 1674-1691). -/
def updateOrgProject (org : String) (projectNumber : Int)
    (options : UpdateProjectOptions) : RestM Json :=
  RestM.andThen (getOrgProject org projectNumber)
    (fun project =>
      requestChecked ((project.get ("url")).asString) ("PATCH")
        inertiaAccept (some (updateProjectBody options))
        checkGitHubProject)

/-- `deleteOrgProject` (lines 1693-1706). -/
def deleteOrgProject (org : String) (projectNumber : Int) : RestM Unit :=
  RestM.andThen (getOrgProject org projectNumber)
    (fun project =>
      requestUnit ((project.get ("url")).asString) ("DELETE")
        inertiaAccept none)

/-- `listOrgProjectColumns` (lines 1709-1729). -/
def listOrgProjectColumns (org : String) (projectNumber : Int)
    (options : PageOptions) : RestM Json :=
  RestM.andThen (getOrgProject org projectNumber)
    (fun project =>
      requestChecked
        (buildUrl ((project.get ("columns_url")).asString)
          [("per_page", options.per_page.map toString),
           ("page", options.page.map toString)])
        ("GET") inertiaAccept none
        (checkArrayOf checkGitHubProjectColumn))

/-- `createOrgProjectColumn` (lines 1731-1748). -/
def createOrgProjectColumn (org : String) (projectNumber : Int)
    (name : String) : RestM Json :=
  RestM.andThen (getOrgProject org projectNumber)
    (fun project =>
      requestChecked ((project.get ("columns_url")).asString) ("POST")
        inertiaAccept (some (.obj [(("name" : String), Json.str name)]))
        checkGitHubProjectColumn)

/-- `updateOrgProjectColumn` (lines 1750-1765). -/
def updateOrgProjectColumn (columnId : Int) (name : String) :
    RestM Json :=
  requestChecked
    (("https://api.github.com/projects/columns/") ++ toString columnId)
    ("PATCH") inertiaAccept
    (some (.obj [(("name" : String), Json.str name)]))
    checkGitHubProjectColumn

/-- `deleteOrgProjectColumn` (lines 1767-1778). -/
def deleteOrgProjectColumn (columnId : Int) : RestM Unit :=
  requestUnit
    (("https://api.github.com/projects/columns/") ++ toString columnId)
    ("DELETE") inertiaAccept none

/-- `listOrgProjectCards` (lines 1781-1800). -/
def listOrgProjectCards (columnId : Int) (options : ListCardsOptions) :
    RestM Json :=
  requestChecked
    (buildUrl
      ((("https://api.github.com/projects/columns/") ++ toString columnId)
        ++ ("/cards"))
      [("archived_state", options.archived_state),
       ("per_page", options.per_page.map toString),
       ("page", options.page.map toString)])
    ("GET") inertiaAccept none (checkArrayOf checkGitHubProjectCard)

/-- `createOrgProjectCard` (lines 1802-1817). -/
def createOrgProjectCard (columnId : Int) (options : CreateCardOptions) :
    RestM Json :=
  requestChecked
    ((("https://api.github.com/projects/columns/") ++ toString columnId)
      ++ ("/cards"))
    ("POST") inertiaAccept (some (createCardBody options))
    checkGitHubProjectCard

/-- `updateOrgProjectCard` (lines 1819-1834). -/
def updateOrgProjectCard (cardId : Int) (options : UpdateCardOptions) :
    RestM Json :=
  requestChecked
    (("https://api.github.com/projects/cards/") ++ toString cardId)
    ("PATCH") inertiaAccept (some (updateCardBody options))
    checkGitHubProjectCard

/-- `deleteOrgProjectCard` (lines 1836-1847). -/
def deleteOrgProjectCard (cardId : Int) : RestM Unit :=
  requestUnit
    (("https://api.github.com/projects/cards/") ++ toString cardId)
    ("DELETE") inertiaAccept none

/-- `moveOrgProjectCard` (lines 1849-1868): identical wire behavior to
`moveProjectCard`. -/
def moveOrgProjectCard (cardId : Int) (position : String)
    (columnId : Option Int) : RestM Unit :=
  requestUnit
    ((("https://api.github.com/projects/cards/") ++ toString cardId)
      ++ ("/moves"))
    ("POST") inertiaAccept (some (moveCardBody position columnId))

/-- The `move_project_card` tool handler (README, lines 1388-1395):
after the underlying call succeeds the tool answers with the bare
confirmation object `success: true` and nothing else. -/
def moveProjectCardHandler (cardId : Int) (position : String)
    (columnId : Option Int) : RestM Json :=
  RestM.andThen (moveProjectCard cardId position columnId)
    (fun _ => fun s =>
      (.ok (.obj [(("success" : String), Json.bool true)]), s))

/-! ## Claims about the response classifier -/

/-- C2: whenever a GraphQL response parses to an envelope whose `errors`
list is non-empty, `githubGraphQLRequest` fails with the protocol error
whose message is built from the first error and which retains the whole
error list; the success value is never returned. -/
theorem spec_C2_nonempty_errors_fail (raw : Json) (data? : Option Json)
    (e : GqlError) (rest : List GqlError)
    (h : parseGraphQLResponse raw = some (data?, e :: rest)) :
    githubGraphQLRequest raw
      = .error (.graphqlError (("GraphQL Error: ") ++ e.message) (e :: rest)) := by
  unfold githubGraphQLRequest
  rw [h]

/-- Witness for C2 at a concrete response carrying one error. -/
theorem spec_C2_witness :
    githubGraphQLRequest
        (Json.obj [(("data" : String), Json.null),
          (("errors" : String),
            Json.arr [Json.obj [(("message" : String), Json.str ("boom"))]])])
      = .error (.graphqlError (("GraphQL Error: ") ++ ("boom"))
          [⟨("boom"), none, none, none⟩]) :=
  spec_C2_nonempty_errors_fail _ none ⟨("boom"), none, none, none⟩ [] rfl

/-- C3: a response parsing to `data: null` with an empty (or absent,
which parses the same) `errors` list fails with the distinguished
null-data protocol error, and that error differs from every error
produced for a populated `errors` list. -/
theorem spec_C3_null_data_distinguished (raw : Json)
    (h : parseGraphQLResponse raw = some (none, [])) :
    githubGraphQLRequest raw
      = .error (.nullData
          ("GraphQL query returned null data. Check query validity and permissions."))
    ∧ ∀ (m : String) (es : List GqlError),
        OpError.nullData
            ("GraphQL query returned null data. Check query validity and permissions.")
          ≠ OpError.graphqlError m es := by
  refine ⟨?_, ?_⟩
  · unfold githubGraphQLRequest
    rw [h]
  · intro m es h'
    exact OpError.noConfusion h'

/-- Witness for C3: `data: null` with the `errors` key absent, and with
it present but empty, both parse to the empty error list, and the
classifier answers with the null-data error. -/
theorem spec_C3_witness :
    parseGraphQLResponse (Json.obj [(("data" : String), Json.null)])
      = some (none, [])
    ∧ parseGraphQLResponse
        (Json.obj [(("data" : String), Json.null),
          (("errors" : String), Json.arr [])])
      = some (none, [])
    ∧ githubGraphQLRequest (Json.obj [(("data" : String), Json.null)])
      = .error (.nullData
          ("GraphQL query returned null data. Check query validity and permissions.")) :=
  ⟨rfl, rfl,
    (spec_C3_null_data_distinguished
      (Json.obj [(("data" : String), Json.null)]) rfl).1⟩

/-- C4: a response body that fails to parse against the envelope schema
makes `githubGraphQLRequest` fail with the malformed-envelope error that
retains the raw body; no such body is ever coerced into a success. -/
theorem spec_C4_malformed_envelope (raw : Json)
    (h : parseGraphQLResponse raw = none) :
    githubGraphQLRequest raw = .error (.parseFailure raw)
    ∧ ∀ v, githubGraphQLRequest raw ≠ .ok v := by
  have hrun : githubGraphQLRequest raw = .error (.parseFailure raw) := by
    unfold githubGraphQLRequest
    rw [h]
  refine ⟨hrun, ?_⟩
  intro v hv
  rw [hrun] at hv
  exact Except.noConfusion hv

/-- Witness for C4: assorted bodies outside the envelope shape — a bare
string, an object without `data`, a string-valued `data`, a non-list
`errors` — all fail the parse, and the classifier keeps the raw body. -/
theorem spec_C4_witness :
    parseGraphQLResponse (Json.str ("oops")) = none
    ∧ parseGraphQLResponse (Json.obj []) = none
    ∧ parseGraphQLResponse (Json.obj [(("data" : String), Json.str ("x"))])
      = none
    ∧ parseGraphQLResponse
        (Json.obj [(("data" : String), Json.obj []),
          (("errors" : String), Json.str ("x"))]) = none
    ∧ githubGraphQLRequest (Json.str ("oops"))
      = .error (.parseFailure (Json.str ("oops"))) :=
  ⟨rfl, rfl, rfl, rfl,
    (spec_C4_malformed_envelope (Json.str ("oops")) rfl).1⟩

/-! ## Claims about identifier resolution and call ordering -/

theorem dispatch_cons (q : QueryDoc) (vars : List (String × Json))
    (r : Json) (rest : List Json) (cs : List GqlCall) :
    dispatch q vars ⟨r :: rest, cs⟩
      = (githubGraphQLRequest r, ⟨rest, cs ++ [⟨q, serializeVars vars⟩]⟩) :=
  rfl

theorem dispatch_nil (q : QueryDoc) (vars : List (String × Json))
    (cs : List GqlCall) :
    dispatch q vars ⟨[], cs⟩
      = (.error .noResponse, ⟨[], cs ++ [⟨q, serializeVars vars⟩]⟩) :=
  rfl

/-- A dispatch-then-post step consumes exactly the head response: the
outcome is the classifier composed with the post-processing on that one
response, the call is logged, the rest of the script is untouched. -/
theorem dispatchThen_cons (q : QueryDoc) (vars : List (String × Json))
    (post : Json → Except OpError Json) (r : Json) (rest : List Json)
    (cs : List GqlCall) :
    dispatchThen q vars post ⟨r :: rest, cs⟩
      = ((githubGraphQLRequest r).bind post,
         ⟨rest, cs ++ [⟨q, serializeVars vars⟩]⟩) := by
  unfold dispatchThen
  rw [dispatch_cons]
  cases h : githubGraphQLRequest r <;> rfl

theorem dispatchThen_nil (q : QueryDoc) (vars : List (String × Json))
    (post : Json → Except OpError Json) (cs : List GqlCall) :
    dispatchThen q vars post ⟨[], cs⟩
      = (.error .noResponse, ⟨[], cs ++ [⟨q, serializeVars vars⟩]⟩) :=
  rfl

/-- A dispatch-then-post step always appends exactly its own call. -/
theorem dispatchThen_calls (q : QueryDoc) (vars : List (String × Json))
    (post : Json → Except OpError Json) (s : GqlState) :
    (dispatchThen q vars post s).2.calls
      = s.calls ++ [⟨q, serializeVars vars⟩] := by
  obtain ⟨pending, cs⟩ := s
  cases pending with
  | nil => rfl
  | cons r rest => rw [dispatchThen_cons]

/-- Running the organization resolver consumes exactly the first scripted
response; its outcome depends only on that response. -/
theorem getOrganizationNodeId_cons (login : String) (r : Json)
    (rest : List Json) (cs : List GqlCall) :
    getOrganizationNodeId login ⟨r :: rest, cs⟩
      = ((getOrganizationNodeId login ⟨[r], []⟩).1,
         ⟨rest,
          cs ++ [⟨.getOrgId, [(("login" : String), Json.str login)]⟩]⟩) := by
  unfold getOrganizationNodeId
  rw [dispatchThen_cons, dispatchThen_cons]
  rfl

/-- Same frame fact for the repository-owner resolver. -/
theorem getRepositoryOwnerNodeId_cons (login : String) (r : Json)
    (rest : List Json) (cs : List GqlCall) :
    getRepositoryOwnerNodeId login ⟨r :: rest, cs⟩
      = ((getRepositoryOwnerNodeId login ⟨[r], []⟩).1,
         ⟨rest,
          cs ++ [⟨.getRepoOwnerId,
            [(("login" : String), Json.str login)]⟩]⟩) := by
  unfold getRepositoryOwnerNodeId
  rw [dispatchThen_cons, dispatchThen_cons]
  rfl

/-- Same frame fact for the repository resolver. -/
theorem getRepositoryNodeId_cons (owner name : String) (r : Json)
    (rest : List Json) (cs : List GqlCall) :
    getRepositoryNodeId owner name ⟨r :: rest, cs⟩
      = ((getRepositoryNodeId owner name ⟨[r], []⟩).1,
         ⟨rest,
          cs ++ [⟨.getRepoId,
            [(("owner" : String), Json.str owner),
             (("name" : String), Json.str name)]⟩]⟩) := by
  unfold getRepositoryNodeId
  rw [dispatchThen_cons, dispatchThen_cons]
  rfl

/-- Sequencing propagates an error of the first step unchanged. -/
theorem OpM.andThen_error {α β : Type} (x : OpM α) (f : α → OpM β)
    (s s1 : GqlState) (e : OpError) (h : x s = (.error e, s1)) :
    OpM.andThen x f s = (.error e, s1) := by
  unfold OpM.andThen
  rw [h]

/-- Sequencing feeds a value of the first step to the continuation. -/
theorem OpM.andThen_ok {α β : Type} (x : OpM α) (f : α → OpM β)
    (s s1 : GqlState) (a : α) (h : x s = (.ok a, s1)) :
    OpM.andThen x f s = f a s1 := by
  unfold OpM.andThen
  rw [h]

/-- The mutation half of the organization creation appends exactly one
call (the creation mutation) to the log, whatever the script holds. -/
theorem createOrgProjectV2Finish_calls (organizationId : Json)
    (title : String) (s : GqlState) :
    (createOrgProjectV2Finish organizationId title s).2.calls
      = s.calls ++ [⟨.createOrgProjectV2Mutation,
          serializeVars
            [(("organizationId" : String), organizationId),
             (("title" : String), Json.str title)]⟩] :=
  dispatchThen_calls _ _ _ s

/-- Likewise for the repository creation mutation. -/
theorem createRepoProjectV2Finish_calls (ownerId repositoryId : Json)
    (title : String) (s : GqlState) :
    (createRepoProjectV2Finish ownerId repositoryId title s).2.calls
      = s.calls ++ [⟨.createRepoProjectV2Mutation,
          serializeVars
            [(("ownerId" : String), ownerId),
             (("repositoryId" : String), repositoryId),
             (("title" : String), Json.str title)]⟩] :=
  dispatchThen_calls _ _ _ s

/-- The dispatched documents of an organization board creation form, in
order, the resolution query and then (only after it succeeded) the
creation mutation. -/
theorem createOrgProjectV2_order (options : CreateOrgProjectV2Options)
    (script : List Json) :
    (createOrgProjectV2 options ⟨script, []⟩).2.calls.map GqlCall.query
        = [QueryDoc.getOrgId]
    ∨ (createOrgProjectV2 options ⟨script, []⟩).2.calls.map GqlCall.query
        = [QueryDoc.getOrgId, QueryDoc.createOrgProjectV2Mutation] := by
  cases script with
  | nil => left; rfl
  | cons r rest =>
    unfold createOrgProjectV2
    have hres := getOrganizationNodeId_cons options.orgLogin r rest []
    cases hx : (getOrganizationNodeId options.orgLogin ⟨[r], []⟩).1 with
    | error e =>
      rw [OpM.andThen_error _ _ _ _ e (by rw [hres, hx])]
      left
      rfl
    | ok orgId =>
      rw [OpM.andThen_ok _ _ _ _ orgId (by rw [hres, hx])]
      right
      rw [createOrgProjectV2Finish_calls]
      rfl

/-- The dispatched documents of a repository board creation form, in
order, the owner resolution, then the repository resolution, then the
creation mutation, each step only after the previous succeeded. -/
theorem createRepoProjectV2_order (options : CreateRepoProjectV2Options)
    (script : List Json) :
    (createRepoProjectV2 options ⟨script, []⟩).2.calls.map GqlCall.query
        = [QueryDoc.getRepoOwnerId]
    ∨ (createRepoProjectV2 options ⟨script, []⟩).2.calls.map GqlCall.query
        = [QueryDoc.getRepoOwnerId, QueryDoc.getRepoId]
    ∨ (createRepoProjectV2 options ⟨script, []⟩).2.calls.map GqlCall.query
        = [QueryDoc.getRepoOwnerId, QueryDoc.getRepoId,
           QueryDoc.createRepoProjectV2Mutation] := by
  cases script with
  | nil => left; rfl
  | cons r rest =>
    unfold createRepoProjectV2
    have h1 := getRepositoryOwnerNodeId_cons options.ownerLogin r rest []
    cases hx : (getRepositoryOwnerNodeId options.ownerLogin ⟨[r], []⟩).1 with
    | error e =>
      rw [OpM.andThen_error _ _ _ _ e (by rw [h1, hx])]
      left
      rfl
    | ok ownerId =>
      rw [OpM.andThen_ok _ _ _ _ ownerId (by rw [h1, hx])]
      cases rest with
      | nil => right; left; rfl
      | cons r2 rest2 =>
        have h2 := getRepositoryNodeId_cons options.ownerLogin
          options.repoName r2 rest2
          ([] ++ [⟨.getRepoOwnerId,
            [(("login" : String), Json.str options.ownerLogin)]⟩])
        cases hx2 : (getRepositoryNodeId options.ownerLogin
            options.repoName ⟨[r2], []⟩).1 with
        | error e =>
          rw [OpM.andThen_error _ _ _ _ e (by rw [h2, hx2])]
          right; left
          rfl
        | ok repositoryId =>
          rw [OpM.andThen_ok _ _ _ _ repositoryId (by rw [h2, hx2])]
          right; right
          rw [createRepoProjectV2Finish_calls]
          rfl

/-- C1: board creations resolve identifiers in a fixed order before the
creation mutation: the organization creation dispatches its resolution
query first and its mutation at most second; a failed organization
resolution aborts with a single round trip and no mutation; the
repository creation dispatches owner resolution, then repository
resolution, then the mutation, aborting after one (or two) round trips
when the first (or second) resolution fails; and the creation mutation
is ever dispatched only after both resolutions, never with a partial
set of identifiers. -/
theorem spec_C1_resolution_before_mutation :
    (∀ (options : CreateOrgProjectV2Options) (script : List Json),
      (createOrgProjectV2 options ⟨script, []⟩).2.calls.map GqlCall.query
          = [QueryDoc.getOrgId]
        ∨ (createOrgProjectV2 options ⟨script, []⟩).2.calls.map
            GqlCall.query
          = [QueryDoc.getOrgId, QueryDoc.createOrgProjectV2Mutation])
    ∧ (∀ (options : CreateOrgProjectV2Options) (r : Json)
        (rest : List Json) (e : OpError),
        (getOrganizationNodeId options.orgLogin ⟨[r], []⟩).1 = .error e →
        createOrgProjectV2 options ⟨r :: rest, []⟩
          = (.error e,
             ⟨rest, [⟨.getOrgId,
               [(("login" : String), Json.str options.orgLogin)]⟩]⟩))
    ∧ (∀ (options : CreateRepoProjectV2Options) (script : List Json),
        (createRepoProjectV2 options ⟨script, []⟩).2.calls.map
            GqlCall.query
          = [QueryDoc.getRepoOwnerId]
        ∨ (createRepoProjectV2 options ⟨script, []⟩).2.calls.map
            GqlCall.query
          = [QueryDoc.getRepoOwnerId, QueryDoc.getRepoId]
        ∨ (createRepoProjectV2 options ⟨script, []⟩).2.calls.map
            GqlCall.query
          = [QueryDoc.getRepoOwnerId, QueryDoc.getRepoId,
             QueryDoc.createRepoProjectV2Mutation])
    ∧ (∀ (options : CreateRepoProjectV2Options) (r : Json)
        (rest : List Json) (e : OpError),
        (getRepositoryOwnerNodeId options.ownerLogin ⟨[r], []⟩).1
          = .error e →
        createRepoProjectV2 options ⟨r :: rest, []⟩
          = (.error e,
             ⟨rest, [⟨.getRepoOwnerId,
               [(("login" : String), Json.str options.ownerLogin)]⟩]⟩))
    ∧ (∀ (options : CreateRepoProjectV2Options) (r1 r2 : Json)
        (rest : List Json) (e : OpError) (ownerId : Json),
        (getRepositoryOwnerNodeId options.ownerLogin ⟨[r1], []⟩).1
          = .ok ownerId →
        (getRepositoryNodeId options.ownerLogin options.repoName
          ⟨[r2], []⟩).1 = .error e →
        createRepoProjectV2 options ⟨r1 :: r2 :: rest, []⟩
          = (.error e,
             ⟨rest,
              [⟨.getRepoOwnerId,
                [(("login" : String), Json.str options.ownerLogin)]⟩,
               ⟨.getRepoId,
                [(("owner" : String), Json.str options.ownerLogin),
                 (("name" : String), Json.str options.repoName)]⟩]⟩))
    ∧ (∀ (options : CreateRepoProjectV2Options) (script : List Json),
        QueryDoc.createRepoProjectV2Mutation
            ∈ (createRepoProjectV2 options ⟨script, []⟩).2.calls.map
                GqlCall.query →
        (createRepoProjectV2 options ⟨script, []⟩).2.calls.map
            GqlCall.query
          = [QueryDoc.getRepoOwnerId, QueryDoc.getRepoId,
             QueryDoc.createRepoProjectV2Mutation]) := by
  refine ⟨createOrgProjectV2_order, ?_, createRepoProjectV2_order, ?_, ?_, ?_⟩
  · intro options r rest e h
    unfold createOrgProjectV2
    rw [OpM.andThen_error _ _ _ _ e
      (by rw [getOrganizationNodeId_cons, h])]
    rfl
  · intro options r rest e h
    unfold createRepoProjectV2
    rw [OpM.andThen_error _ _ _ _ e
      (by rw [getRepositoryOwnerNodeId_cons, h])]
    rfl
  · intro options r1 r2 rest e ownerId h1 h2
    unfold createRepoProjectV2
    rw [OpM.andThen_ok _ _ _ _ ownerId
      (by rw [getRepositoryOwnerNodeId_cons, h1])]
    rw [OpM.andThen_error _ _ _ _ e
      (by rw [getRepositoryNodeId_cons, h2])]
    rfl
  · intro options script hmem
    rcases createRepoProjectV2_order options script with h | h | h
    · rw [h] at hmem
      exact absurd hmem (by decide)
    · rw [h] at hmem
      exact absurd hmem (by decide)
    · exact h

/-- Witness for C1: with a script whose first response carries
`organization: null`, the organization creation stops after one logged
resolution call; the repository creation aborts after one call on a null
owner, after two calls on a null repository, and dispatches its mutation
third when both resolutions succeed. -/
theorem spec_C1_witness :
    createOrgProjectV2 ⟨("acme"), ("Board")⟩
        ⟨[Json.obj [(("data" : String),
          Json.obj [(("organization" : String), Json.null)])]], []⟩
      = (.error (.opError (("Organization not found: ") ++ ("acme"))),
         ⟨[], [⟨.getOrgId, [(("login" : String), Json.str ("acme"))]⟩]⟩)
    ∧ createRepoProjectV2 ⟨("alice"), ("proj"), ("Board")⟩
        ⟨[Json.obj [(("data" : String),
          Json.obj [(("repositoryOwner" : String), Json.null)])]], []⟩
      = (.error (.opError (("Repository owner not found: ") ++ ("alice"))),
         ⟨[], [⟨.getRepoOwnerId,
           [(("login" : String), Json.str ("alice"))]⟩]⟩)
    ∧ createRepoProjectV2 ⟨("alice"), ("proj"), ("Board")⟩
        ⟨[Json.obj [(("data" : String),
            Json.obj [(("repositoryOwner" : String),
              Json.obj [(("id" : String), Json.str ("OID"))])])],
          Json.obj [(("data" : String),
            Json.obj [(("repository" : String), Json.null)])]], []⟩
      = (.error (.opError
          ((("Repository not found: ") ++ ("alice")) ++ (("/") ++ ("proj")))),
         ⟨[], [⟨.getRepoOwnerId,
            [(("login" : String), Json.str ("alice"))]⟩,
           ⟨.getRepoId,
            [(("owner" : String), Json.str ("alice")),
             (("name" : String), Json.str ("proj"))]⟩]⟩)
    ∧ (createRepoProjectV2 ⟨("alice"), ("proj"), ("Board")⟩
        ⟨[Json.obj [(("data" : String),
            Json.obj [(("repositoryOwner" : String),
              Json.obj [(("id" : String), Json.str ("OID"))])])],
          Json.obj [(("data" : String),
            Json.obj [(("repository" : String),
              Json.obj [(("id" : String), Json.str ("RID"))])])]],
         []⟩).2.calls.map GqlCall.query
      = [QueryDoc.getRepoOwnerId, QueryDoc.getRepoId,
         QueryDoc.createRepoProjectV2Mutation] :=
  ⟨spec_C1_resolution_before_mutation.2.1 ⟨("acme"), ("Board")⟩ _ [] _ rfl,
   spec_C1_resolution_before_mutation.2.2.2.1 ⟨("alice"), ("proj"), ("Board")⟩
     _ [] _ rfl,
   spec_C1_resolution_before_mutation.2.2.2.2.1
     ⟨("alice"), ("proj"), ("Board")⟩ _ _ [] _ (Json.str ("OID")) rfl rfl,
   spec_C1_resolution_before_mutation.2.2.2.2.2
     ⟨("alice"), ("proj"), ("Board")⟩ _ (by decide)⟩

/-! ## Claims about the update operation of the current model -/

/-- The update variables never hold an `undefined`, so serialization
keeps them all. -/
theorem serializeVars_updateVars (o : UpdateProjectV2Options) :
    serializeVars (updateVars o) = updateVars o := by
  rcases o with ⟨pid, t, rm, c⟩
  rcases t with _ | t <;> rcases rm with _ | rm <;> rcases c with _ | c <;>
    rfl

/-- The mutation branch logs exactly the update mutation with the built
variables. -/
theorem updateProjectV2Mutate_calls (o : UpdateProjectV2Options)
    (s : GqlState) :
    (updateProjectV2Mutate o s).2.calls
      = s.calls ++ [⟨.updateProjectV2Mutation, updateVars o⟩] := by
  rw [show (updateProjectV2Mutate o s).2.calls
      = s.calls ++ [⟨.updateProjectV2Mutation,
          serializeVars (updateVars o)⟩] from dispatchThen_calls _ _ _ s,
    serializeVars_updateVars]

/-- C9: calling the update with no optional field dispatches no mutation
at all — the operation is literally the read operation, whose single
logged call is the read query; with at least one optional field the
single dispatched call is the update mutation whose variables are
exactly `projectId` plus the provided fields, and an absent field is
never sent (in particular never as an explicit `null`). -/
theorem spec_C9_noop_update_reads_only :
    (∀ (projectId : String),
      updateProjectV2 ⟨projectId, none, none, none⟩
        = getProjectV2 projectId)
    ∧ (∀ (projectId : String) (s : GqlState),
        (updateProjectV2 ⟨projectId, none, none, none⟩ s).2.calls
          = s.calls ++ [⟨.getProjectV2Query,
              [(("projectId" : String), Json.str projectId)]⟩])
    ∧ (∀ (o : UpdateProjectV2Options),
        o.title ≠ none ∨ o.readme ≠ none ∨ o.closed ≠ none →
        ∀ (s : GqlState),
          (updateProjectV2 o s).2.calls
            = s.calls ++ [⟨.updateProjectV2Mutation, updateVars o⟩])
    ∧ (∀ (o : UpdateProjectV2Options),
        (("projectId" : String), Json.str o.projectId) ∈ updateVars o)
    ∧ (∀ (o : UpdateProjectV2Options) (t : String),
        (("title" : String), Json.str t) ∈ updateVars o ↔ o.title = some t)
    ∧ (∀ (o : UpdateProjectV2Options) (r : String),
        (("readme" : String), Json.str r) ∈ updateVars o
          ↔ o.readme = some r)
    ∧ (∀ (o : UpdateProjectV2Options) (b : Bool),
        (("closed" : String), Json.bool b) ∈ updateVars o
          ↔ o.closed = some b)
    ∧ (∀ (o : UpdateProjectV2Options) (k : String),
        (k, Json.null) ∉ updateVars o) := by
  refine ⟨?_, ?_, ?_, ?_, ?_, ?_, ?_, ?_⟩
  · intro projectId
    unfold updateProjectV2
    rw [if_pos (by exact Nat.le.refl)]
  · intro projectId s
    unfold updateProjectV2
    rw [if_pos (by exact Nat.le.refl)]
    exact dispatchThen_calls _ _ _ s
  · intro o h s
    unfold updateProjectV2
    rw [if_neg (by
      rcases o with ⟨pid, t, rm, c⟩
      rcases t with _ | t <;> rcases rm with _ | rm <;>
        rcases c with _ | c <;> simp_all [updateVars])]
    exact updateProjectV2Mutate_calls o s
  · intro o
    rcases o with ⟨pid, t, rm, c⟩
    rcases t with _ | t <;> rcases rm with _ | rm <;>
      rcases c with _ | c <;> simp [updateVars]
  · intro o t0
    rcases o with ⟨pid, t, rm, c⟩
    rcases t with _ | t <;> rcases rm with _ | rm <;>
      rcases c with _ | c <;> simp [updateVars, eq_comm]
  · intro o r0
    rcases o with ⟨pid, t, rm, c⟩
    rcases t with _ | t <;> rcases rm with _ | rm <;>
      rcases c with _ | c <;> simp [updateVars, eq_comm]
  · intro o b0
    rcases o with ⟨pid, t, rm, c⟩
    rcases t with _ | t <;> rcases rm with _ | rm <;>
      rcases c with _ | c <;> simp [updateVars, eq_comm]
  · intro o k
    rcases o with ⟨pid, t, rm, c⟩
    rcases t with _ | t <;> rcases rm with _ | rm <;>
      rcases c with _ | c <;> simp [updateVars]

/-- Witness for C9: a ready update dispatches only the read query; an
update providing just a title dispatches the mutation with exactly
`projectId` and `title`, and the absent `readme` is indeed never sent
as a `null`. -/
theorem spec_C9_witness :
    updateProjectV2 ⟨("PID"), none, none, none⟩ = getProjectV2 ("PID")
    ∧ (updateProjectV2 ⟨("PID"), some ("New title"), none, none⟩
        ⟨[], []⟩).2.calls
      = [⟨.updateProjectV2Mutation,
          [(("projectId" : String), Json.str ("PID")),
           (("title" : String), Json.str ("New title"))]⟩]
    ∧ (("title" : String), Json.str ("New title"))
        ∈ updateVars ⟨("PID"), some ("New title"), none, none⟩
    ∧ (("readme" : String), Json.null)
        ∉ updateVars ⟨("PID"), some ("New title"), none, none⟩ :=
  ⟨spec_C9_noop_update_reads_only.1 ("PID"),
   by
    rw [spec_C9_noop_update_reads_only.2.2.1
      ⟨("PID"), some ("New title"), none, none⟩
      (Or.inl (by decide)) ⟨[], []⟩]
    rfl,
   (spec_C9_noop_update_reads_only.2.2.2.2.1
      ⟨("PID"), some ("New title"), none, none⟩ ("New title")).mpr rfl,
   spec_C9_noop_update_reads_only.2.2.2.2.2.2.2
      ⟨("PID"), some ("New title"), none, none⟩ ("readme")⟩

/-! ## Claims about output validation -/

/-- Counterexample to C5 as stated: the field listing returns a payload
that fails its own output schema (`ProjectV2FieldConnectionSchema`).
With a scripted response whose `node.fields` is the truthy object
`nodes: "garbage"`, the operation succeeds and hands that object to the
caller even though the schema rejects it — the source bypasses the
validation with a TODO. -/
theorem spec_C5_counterexample :
    (listProjectFieldsV2 ⟨("P1"), none, none⟩
        ⟨[Json.obj [(("data" : String),
          Json.obj [(("node" : String),
            Json.obj [(("fields" : String),
              Json.obj [(("nodes" : String),
                Json.str ("garbage"))])])])]], []⟩).1
      = .ok (Json.obj [(("nodes" : String), Json.str ("garbage"))])
    ∧ checkFieldConnection
        (Json.obj [(("nodes" : String), Json.str ("garbage"))]) = false :=
  ⟨rfl, rfl⟩

/-- C5 (amended): the validated listings and reads fail closed — any
success value of the item listing, the organization and repository
board listings, and the single-board read has passed the corresponding
output schema.  The field listing is exempt: the source returns its
payload unvalidated (see the counterexample). -/
theorem spec_C5_outputs_pass_schema :
    (∀ (options : ListProjectItemsV2Options) (s : GqlState) (v : Json)
        (s1 : GqlState),
        listProjectItemsV2 options s = (.ok v, s1) →
        checkItemConnection v = true)
    ∧ (∀ (options : ListOrgProjectsV2Options) (s : GqlState) (v : Json)
        (s1 : GqlState),
        listOrgProjectsV2 options s = (.ok v, s1) →
        checkProjectV2Connection v = true)
    ∧ (∀ (options : ListRepoProjectsV2Options) (s : GqlState) (v : Json)
        (s1 : GqlState),
        listRepoProjectsV2 options s = (.ok v, s1) →
        checkProjectV2Connection v = true)
    ∧ (∀ (projectId : String) (s : GqlState) (v : Json) (s1 : GqlState),
        getProjectV2 projectId s = (.ok v, s1) →
        checkGitHubProjectV2 v = true) := by
  refine ⟨?_, ?_, ?_, ?_⟩
  · intro options s v s1 h
    obtain ⟨pending, cs⟩ := s
    unfold listProjectItemsV2 at h
    cases pending with
    | nil => rw [dispatchThen_nil] at h; simp at h
    | cons r rest =>
      rw [dispatchThen_cons] at h
      have h1 := congrArg Prod.fst h
      simp only at h1
      cases hg : githubGraphQLRequest r with
      | error e => rw [hg] at h1; simp [Except.bind] at h1
      | ok result =>
        rw [hg] at h1
        simp only [Except.bind] at h1
        split at h1
        · simp at h1
        · split at h1
          · rw [show v = Json.get (result.get ("node")) ("items") from
              (Except.ok.injEq _ _ |>.mp h1.symm)]
            assumption
          · simp at h1
  · intro options s v s1 h
    obtain ⟨pending, cs⟩ := s
    unfold listOrgProjectsV2 at h
    cases pending with
    | nil => rw [dispatchThen_nil] at h; simp at h
    | cons r rest =>
      rw [dispatchThen_cons] at h
      have h1 := congrArg Prod.fst h
      simp only at h1
      cases hg : githubGraphQLRequest r with
      | error e => rw [hg] at h1; simp [Except.bind] at h1
      | ok result =>
        rw [hg] at h1
        simp only [Except.bind] at h1
        split at h1
        · rw [show v = Json.get (result.get ("organization"))
              ("projectsV2") from (Except.ok.injEq _ _ |>.mp h1.symm)]
          assumption
        · simp at h1
  · intro options s v s1 h
    obtain ⟨pending, cs⟩ := s
    unfold listRepoProjectsV2 at h
    cases pending with
    | nil => rw [dispatchThen_nil] at h; simp at h
    | cons r rest =>
      rw [dispatchThen_cons] at h
      have h1 := congrArg Prod.fst h
      simp only at h1
      cases hg : githubGraphQLRequest r with
      | error e => rw [hg] at h1; simp [Except.bind] at h1
      | ok result =>
        rw [hg] at h1
        simp only [Except.bind] at h1
        split at h1
        · rw [show v = Json.get (result.get ("repository"))
              ("projectsV2") from (Except.ok.injEq _ _ |>.mp h1.symm)]
          assumption
        · simp at h1
  · intro projectId s v s1 h
    obtain ⟨pending, cs⟩ := s
    unfold getProjectV2 at h
    cases pending with
    | nil => rw [dispatchThen_nil] at h; simp at h
    | cons r rest =>
      rw [dispatchThen_cons] at h
      have h1 := congrArg Prod.fst h
      simp only at h1
      cases hg : githubGraphQLRequest r with
      | error e => rw [hg] at h1; simp [Except.bind] at h1
      | ok result =>
        rw [hg] at h1
        simp only [Except.bind] at h1
        split at h1
        · simp at h1
        · split at h1
          · rw [show v = result.get ("node") from
              (Except.ok.injEq _ _ |>.mp h1.symm)]
            assumption
          · simp at h1

/-- Witness for C5: concrete successful runs of each validated
operation, with the conclusions drawn through the theorem. -/
theorem spec_C5_witness :
    listProjectItemsV2 ⟨("P"), none, none⟩
        ⟨[Json.obj [(("data" : String), Json.obj [(("node" : String),
          Json.obj [(("items" : String),
            Json.obj [(("nodes" : String), Json.null),
              (("pageInfo" : String),
                Json.obj [(("endCursor" : String), Json.null),
                  (("hasNextPage" : String), Json.bool false),
                  (("hasPreviousPage" : String), Json.bool false),
                  (("startCursor" : String), Json.null)]),
              (("totalCount" : String), Json.num 0)])])])]], []⟩
      = (.ok (Json.obj [(("nodes" : String), Json.null),
          (("pageInfo" : String),
            Json.obj [(("endCursor" : String), Json.null),
              (("hasNextPage" : String), Json.bool false),
              (("hasPreviousPage" : String), Json.bool false),
              (("startCursor" : String), Json.null)]),
          (("totalCount" : String), Json.num 0)]),
         ⟨[], [⟨.listProjectItemsQuery,
           [(("projectId" : String), Json.str ("P")),
            (("first" : String), Json.num 30)]⟩]⟩)
    ∧ checkItemConnection
        (Json.obj [(("nodes" : String), Json.null),
          (("pageInfo" : String),
            Json.obj [(("endCursor" : String), Json.null),
              (("hasNextPage" : String), Json.bool false),
              (("hasPreviousPage" : String), Json.bool false),
              (("startCursor" : String), Json.null)]),
          (("totalCount" : String), Json.num 0)]) = true
    ∧ checkProjectV2Connection
        (Json.obj [(("nodes" : String), Json.null),
          (("pageInfo" : String),
            Json.obj [(("endCursor" : String), Json.null),
              (("hasNextPage" : String), Json.bool false),
              (("hasPreviousPage" : String), Json.bool false),
              (("startCursor" : String), Json.null)]),
          (("totalCount" : String), Json.num 0)]) = true
    ∧ checkGitHubProjectV2
        (Json.obj [(("id" : String), Json.str ("PID")),
          (("title" : String), Json.str ("Board")),
          (("number" : String), Json.num 1),
          (("url" : String), Json.str ("u")),
          (("closed" : String), Json.bool false),
          (("public" : String), Json.bool true),
          (("readme" : String), Json.null),
          (("createdAt" : String), Json.str ("2024-01-01T00:00:00Z")),
          (("updatedAt" : String), Json.str ("2024-01-01T00:00:00Z")),
          (("creator" : String), Json.null),
          (("owner" : String),
            Json.obj [(("id" : String), Json.str ("OID"))])]) = true := by
  refine ⟨rfl, ?_, ?_, ?_⟩
  · exact spec_C5_outputs_pass_schema.1 ⟨("P"), none, none⟩
      ⟨[Json.obj [(("data" : String), Json.obj [(("node" : String),
        Json.obj [(("items" : String),
          Json.obj [(("nodes" : String), Json.null),
            (("pageInfo" : String),
              Json.obj [(("endCursor" : String), Json.null),
                (("hasNextPage" : String), Json.bool false),
                (("hasPreviousPage" : String), Json.bool false),
                (("startCursor" : String), Json.null)]),
            (("totalCount" : String), Json.num 0)])])])]], []⟩
      _ ⟨[], [⟨.listProjectItemsQuery,
        [(("projectId" : String), Json.str ("P")),
         (("first" : String), Json.num 30)]⟩]⟩ rfl
  · exact spec_C5_outputs_pass_schema.2.1 ⟨("acme"), none, none⟩
      ⟨[Json.obj [(("data" : String),
        Json.obj [(("organization" : String),
          Json.obj [(("projectsV2" : String),
            Json.obj [(("nodes" : String), Json.null),
              (("pageInfo" : String),
                Json.obj [(("endCursor" : String), Json.null),
                  (("hasNextPage" : String), Json.bool false),
                  (("hasPreviousPage" : String), Json.bool false),
                  (("startCursor" : String), Json.null)]),
              (("totalCount" : String), Json.num 0)])])])]], []⟩
      _ ⟨[], [⟨.listOrgProjectsV2Query,
        [(("orgLogin" : String), Json.str ("acme")),
         (("first" : String), Json.num 30)]⟩]⟩ rfl
  · exact spec_C5_outputs_pass_schema.2.2.2 ("PID")
      ⟨[Json.obj [(("data" : String), Json.obj [(("node" : String),
        Json.obj [(("id" : String), Json.str ("PID")),
          (("title" : String), Json.str ("Board")),
          (("number" : String), Json.num 1),
          (("url" : String), Json.str ("u")),
          (("closed" : String), Json.bool false),
          (("public" : String), Json.bool true),
          (("readme" : String), Json.null),
          (("createdAt" : String), Json.str ("2024-01-01T00:00:00Z")),
          (("updatedAt" : String), Json.str ("2024-01-01T00:00:00Z")),
          (("creator" : String), Json.null),
          (("owner" : String),
            Json.obj [(("id" : String), Json.str ("OID"))])])])]], []⟩
      _ ⟨[], [⟨.getProjectV2Query,
        [(("projectId" : String), Json.str ("PID"))]⟩]⟩ rfl

/-! ## Claims about pagination defaults and the connection shape -/

/-- A successful dispatch-then-post step owes its value to the
post-processing of some classified response. -/
theorem dispatchThen_ok_inv (q : QueryDoc) (vars : List (String × Json))
    (post : Json → Except OpError Json) (s : GqlState) (v : Json)
    (s1 : GqlState) (h : dispatchThen q vars post s = (.ok v, s1)) :
    ∃ result, post result = .ok v := by
  obtain ⟨pending, cs⟩ := s
  cases pending with
  | nil => rw [dispatchThen_nil] at h; simp at h
  | cons r rest =>
    rw [dispatchThen_cons] at h
    have h1 := congrArg Prod.fst h
    simp only at h1
    cases hg : githubGraphQLRequest r with
    | error e => rw [hg] at h1; simp [Except.bind] at h1
    | ok result =>
      rw [hg] at h1
      simp only [Except.bind] at h1
      exact ⟨result, h1⟩

/-- Counterexample to C7 as stated: the field listing is a
query-language listing operation, yet it can succeed with a payload
that has none of `nodes`, `pageInfo` or `totalCount` — its connection
shape is not validated (unlike the other three listings). -/
theorem spec_C7_counterexample :
    (listProjectFieldsV2 ⟨("P2"), none, none⟩
        ⟨[Json.obj [(("data" : String),
          Json.obj [(("node" : String),
            Json.obj [(("fields" : String),
              Json.obj [(("totalCount" : String),
                Json.str ("NaN"))])])])]], []⟩).1
      = .ok (Json.obj [(("totalCount" : String), Json.str ("NaN"))])
    ∧ checkFieldConnection
        (Json.obj [(("totalCount" : String), Json.str ("NaN"))]) = false :=
  ⟨rfl, rfl⟩

/-- C7 (amended): all four query-language listings supply the default
page size 30 in the dispatched variables when `first` is unset; the
organization, repository and item listings moreover return (on success)
a value of the connection shape `(nodes, pageInfo, totalCount)` enforced
by their schemas, while the field listing returns its payload
unvalidated (see the counterexample). -/
theorem spec_C7_default_first :
    (∀ (orgLogin : String) (after : Option String) (script : List Json),
      ∃ vars, (listOrgProjectsV2 ⟨orgLogin, none, after⟩
          ⟨script, []⟩).2.calls
        = [⟨.listOrgProjectsV2Query, vars⟩]
        ∧ (("first" : String), Json.num 30) ∈ vars)
    ∧ (∀ (ownerLogin repoName : String) (after : Option String)
        (script : List Json),
        ∃ vars, (listRepoProjectsV2 ⟨ownerLogin, repoName, none, after⟩
            ⟨script, []⟩).2.calls
          = [⟨.listRepoProjectsV2Query, vars⟩]
          ∧ (("first" : String), Json.num 30) ∈ vars)
    ∧ (∀ (projectId : String) (after : Option String) (script : List Json),
        ∃ vars, (listProjectFieldsV2 ⟨projectId, none, after⟩
            ⟨script, []⟩).2.calls
          = [⟨.listProjectFieldsQuery, vars⟩]
          ∧ (("first" : String), Json.num 30) ∈ vars)
    ∧ (∀ (projectId : String) (after : Option String) (script : List Json),
        ∃ vars, (listProjectItemsV2 ⟨projectId, none, after⟩
            ⟨script, []⟩).2.calls
          = [⟨.listProjectItemsQuery, vars⟩]
          ∧ (("first" : String), Json.num 30) ∈ vars)
    ∧ (∀ (options : ListProjectItemsV2Options) (s : GqlState) (v : Json)
        (s1 : GqlState),
        listProjectItemsV2 options s = (.ok v, s1) →
        checkConnection checkProjectV2Item v = true)
    ∧ (∀ (options : ListOrgProjectsV2Options) (s : GqlState) (v : Json)
        (s1 : GqlState),
        listOrgProjectsV2 options s = (.ok v, s1) →
        checkConnection checkGitHubProjectV2 v = true)
    ∧ (∀ (options : ListRepoProjectsV2Options) (s : GqlState) (v : Json)
        (s1 : GqlState),
        listRepoProjectsV2 options s = (.ok v, s1) →
        checkConnection checkGitHubProjectV2 v = true) := by
  refine ⟨?_, ?_, ?_, ?_, ?_, ?_, ?_⟩
  · intro orgLogin after script
    refine ⟨_, dispatchThen_calls _ _ _ ⟨script, []⟩, ?_⟩
    cases after <;> simp [serializeVars, optStrJson, Json.isUndefined]
  · intro ownerLogin repoName after script
    refine ⟨_, dispatchThen_calls _ _ _ ⟨script, []⟩, ?_⟩
    cases after <;> simp [serializeVars, optStrJson, Json.isUndefined]
  · intro projectId after script
    refine ⟨_, dispatchThen_calls _ _ _ ⟨script, []⟩, ?_⟩
    cases after <;> simp [serializeVars, optStrJson, Json.isUndefined]
  · intro projectId after script
    refine ⟨_, dispatchThen_calls _ _ _ ⟨script, []⟩, ?_⟩
    cases after <;> simp [serializeVars, optStrJson, Json.isUndefined]
  · intro options s v s1 h
    unfold listProjectItemsV2 at h
    obtain ⟨result, hp⟩ := dispatchThen_ok_inv _ _ _ _ _ _ h
    split at hp
    · simp at hp
    · split at hp
      · rw [show v = Json.get (result.get ("node")) ("items") from
          (Except.ok.injEq _ _ |>.mp hp.symm)]
        assumption
      · simp at hp
  · intro options s v s1 h
    unfold listOrgProjectsV2 at h
    obtain ⟨result, hp⟩ := dispatchThen_ok_inv _ _ _ _ _ _ h
    simp only [] at hp
    split at hp
    · rw [show v = Json.get (result.get ("organization")) ("projectsV2")
        from (Except.ok.injEq _ _ |>.mp hp.symm)]
      assumption
    · simp at hp
  · intro options s v s1 h
    unfold listRepoProjectsV2 at h
    obtain ⟨result, hp⟩ := dispatchThen_ok_inv _ _ _ _ _ _ h
    simp only [] at hp
    split at hp
    · rw [show v = Json.get (result.get ("repository")) ("projectsV2")
        from (Except.ok.injEq _ _ |>.mp hp.symm)]
      assumption
    · simp at hp

/-- Witness for C7: a concrete run of each validated listing (with an
empty `nodes` page) discharges the success hypotheses; the default-first
conjuncts applied at concrete logins. -/
theorem spec_C7_witness :
    (∃ vars, (listOrgProjectsV2 ⟨("octo"), none, some ("CUR")⟩
        ⟨[], []⟩).2.calls
      = [⟨.listOrgProjectsV2Query, vars⟩]
      ∧ (("first" : String), Json.num 30) ∈ vars)
    ∧ checkConnection checkProjectV2Item
        (Json.obj [(("nodes" : String), Json.arr []),
          (("pageInfo" : String),
            Json.obj [(("endCursor" : String), Json.str ("END")),
              (("hasNextPage" : String), Json.bool true),
              (("hasPreviousPage" : String), Json.bool false),
              (("startCursor" : String), Json.null)]),
          (("totalCount" : String), Json.num 7)]) = true
    ∧ checkConnection checkGitHubProjectV2
        (Json.obj [(("nodes" : String), Json.arr []),
          (("pageInfo" : String),
            Json.obj [(("endCursor" : String), Json.str ("END")),
              (("hasNextPage" : String), Json.bool true),
              (("hasPreviousPage" : String), Json.bool false),
              (("startCursor" : String), Json.null)]),
          (("totalCount" : String), Json.num 7)]) = true := by
  refine ⟨spec_C7_default_first.1 ("octo") (some ("CUR")) [], ?_, ?_⟩
  · exact spec_C7_default_first.2.2.2.2.1 ⟨("Q"), none, none⟩
      ⟨[Json.obj [(("data" : String), Json.obj [(("node" : String),
        Json.obj [(("items" : String),
          Json.obj [(("nodes" : String), Json.arr []),
            (("pageInfo" : String),
              Json.obj [(("endCursor" : String), Json.str ("END")),
                (("hasNextPage" : String), Json.bool true),
                (("hasPreviousPage" : String), Json.bool false),
                (("startCursor" : String), Json.null)]),
            (("totalCount" : String), Json.num 7)])])])]], []⟩
      _ ⟨[], [⟨.listProjectItemsQuery,
        [(("projectId" : String), Json.str ("Q")),
         (("first" : String), Json.num 30)]⟩]⟩ rfl
  · exact spec_C7_default_first.2.2.2.2.2.2 ⟨("bob"), ("lib"), none, none⟩
      ⟨[Json.obj [(("data" : String),
        Json.obj [(("repository" : String),
          Json.obj [(("projectsV2" : String),
            Json.obj [(("nodes" : String), Json.arr []),
              (("pageInfo" : String),
                Json.obj [(("endCursor" : String), Json.str ("END")),
                  (("hasNextPage" : String), Json.bool true),
                  (("hasPreviousPage" : String), Json.bool false),
                  (("startCursor" : String), Json.null)]),
              (("totalCount" : String), Json.num 7)])])])]], []⟩
      _ ⟨[], [⟨.listRepoProjectsV2Query,
        [(("ownerLogin" : String), Json.str ("bob")),
         (("repoName" : String), Json.str ("lib")),
         (("first" : String), Json.num 30)]⟩]⟩ rfl

/-! ## Claims about the legacy move and the current-model field update -/

theorem requestThen_cons {α : Type} (url method : String)
    (headers : List (String × String)) (body : Option Json)
    (post : Json → Except OpError α) (resp : RestResp)
    (rest : List RestResp) (cs : List RestCall) :
    requestThen url method headers body post ⟨resp :: rest, cs⟩
      = ((match resp with
          | .success j => post j
          | .failure st bd => .error (.httpError st bd)),
         ⟨rest, cs ++ [⟨url, method, headers, body⟩]⟩) := by
  cases resp <;> rfl

theorem requestThen_nil {α : Type} (url method : String)
    (headers : List (String × String)) (body : Option Json)
    (post : Json → Except OpError α) (cs : List RestCall) :
    requestThen url method headers body post ⟨[], cs⟩
      = (.error .noResponse, ⟨[], cs ++ [⟨url, method, headers, body⟩]⟩) :=
  rfl

/-- A request step always appends exactly its own call. -/
theorem requestThen_calls {α : Type} (url method : String)
    (headers : List (String × String)) (body : Option Json)
    (post : Json → Except OpError α) (s : RestState) :
    (requestThen url method headers body post s).2.calls
      = s.calls ++ [⟨url, method, headers, body⟩] := by
  obtain ⟨pending, cs⟩ := s
  cases pending with
  | nil => rfl
  | cons resp rest => rw [requestThen_cons]

/-- Sequencing on the resource transport propagates errors unchanged. -/
theorem RestM.andThen_propagates_error {α β : Type} (x : RestM α) (f : α → RestM β)
    (s s1 : RestState) (e : OpError) (h : x s = (.error e, s1)) :
    RestM.andThen x f s = (.error e, s1) := by
  unfold RestM.andThen
  rw [h]

/-- Sequencing feeds a value to the continuation. -/
theorem RestM.andThen_feeds_ok {α β : Type} (x : RestM α) (f : α → RestM β)
    (s s1 : RestState) (a : α) (h : x s = (.ok a, s1)) :
    RestM.andThen x f s = f a s1 := by
  unfold RestM.andThen
  rw [h]

/-- Counterexample to C6 as stated: updating a current-model item field
does not answer `success: true`; the operation returns the
`projectV2Item` payload of the mutation response — here the updated
item's id object — which is a different value. -/
theorem spec_C6_counterexample :
    (updateProjectItemFieldValueV2
        ⟨("P"), ("I"), ("F"),
         Json.obj [(("singleSelectOptionId" : String), Json.str ("OPT"))]⟩
        ⟨[Json.obj [(("data" : String),
          Json.obj [(("updateProjectV2ItemFieldValue" : String),
            Json.obj [(("projectV2Item" : String),
              Json.obj [(("id" : String), Json.str ("ITEM1"))])])])]],
         []⟩).1
      = .ok (Json.obj [(("id" : String), Json.str ("ITEM1"))])
    ∧ Json.obj [(("id" : String), Json.str ("ITEM1"))]
        ≠ Json.obj [(("success" : String), Json.bool true)] :=
  ⟨rfl, by simp⟩

/-- C6 (amended): the legacy `move_project_card` tool reports success
with exactly the bare object `success: true` and no further content
whenever the underlying move call succeeds, and it performs exactly that
one outbound move request; the current-model field update instead
returns the `projectV2Item` payload of the mutation response (at the
concrete run of the counterexample, the updated item's id object). -/
theorem spec_C6_move_reports_success :
    (∀ (cardId : Int) (position : String) (columnId : Option Int)
        (s : RestState) (v : Json) (s1 : RestState),
        moveProjectCardHandler cardId position columnId s = (.ok v, s1) →
        v = Json.obj [(("success" : String), Json.bool true)])
    ∧ (∀ (cardId : Int) (position : String) (columnId : Option Int)
        (s : RestState),
        (moveProjectCardHandler cardId position columnId s).2.calls
          = s.calls
            ++ [⟨((("https://api.github.com/projects/cards/")
                  ++ toString cardId) ++ ("/moves")), ("POST"),
                inertiaAccept,
                some (moveCardBody position columnId)⟩]) := by
  constructor
  · intro cardId position columnId s v s1 h
    unfold moveProjectCardHandler at h
    rcases hm : moveProjectCard cardId position columnId s with ⟨res, st⟩
    rw [RestM.andThen.eq_def, hm] at h
    cases res with
    | error e => simp at h
    | ok u =>
      have h1 := congrArg Prod.fst h
      simp only at h1
      exact ((Except.ok.injEq _ _).mp h1).symm
  · intro cardId position columnId s
    rcases hm : moveProjectCard cardId position columnId s with ⟨res, st⟩
    have hst : st.calls = s.calls
        ++ [⟨((("https://api.github.com/projects/cards/")
            ++ toString cardId) ++ ("/moves")), ("POST"), inertiaAccept,
          some (moveCardBody position columnId)⟩] := by
      have h2 : (moveProjectCard cardId position columnId s).2.calls
          = s.calls
            ++ [⟨((("https://api.github.com/projects/cards/")
                ++ toString cardId) ++ ("/moves")), ("POST"),
              inertiaAccept, some (moveCardBody position columnId)⟩] :=
        requestThen_calls _ _ _ _ _ s
      rw [hm] at h2
      exact h2
    unfold moveProjectCardHandler
    rw [RestM.andThen.eq_def, hm]
    cases res with
    | error e => exact hst
    | ok u => exact hst

/-- Witness for C6: a concrete successful move run answers exactly
`success: true`. -/
theorem spec_C6_witness :
    moveProjectCardHandler 7 ("top") (some 3)
        ⟨[RestResp.success Json.null], []⟩
      = (.ok (Json.obj [(("success" : String), Json.bool true)]),
         ⟨[], [⟨("https://api.github.com/projects/cards/7/moves"),
           ("POST"), inertiaAccept,
           some (Json.obj [(("position" : String), Json.str ("top")),
             (("column_id" : String), Json.num 3)])⟩]⟩)
    ∧ Json.obj [(("success" : String), Json.bool true)]
      = Json.obj [(("success" : String), Json.bool true)] :=
  ⟨rfl,
   spec_C6_move_reports_success.1 7 ("top") (some 3)
     ⟨[RestResp.success Json.null], []⟩ _
     ⟨[], [⟨("https://api.github.com/projects/cards/7/moves"), ("POST"),
       inertiaAccept,
       some (Json.obj [(("position" : String), Json.str ("top")),
         (("column_id" : String), Json.num 3)])⟩]⟩ rfl⟩

/-! ## Claims about the content-negotiation header -/

/-- Every call an operation adds to the log (beyond those already there)
carries the inertia preview `Accept` header. -/
def inertiaOnNewCalls {α : Type} (m : RestM α) : Prop :=
  ∀ s c, c ∈ (m s).2.calls → c ∈ s.calls
    ∨ (("Accept" : String),
       ("application/vnd.github.inertia-preview+json")) ∈ c.headers

theorem inertiaOnNewCalls_requestThen {α : Type} (url method : String)
    (body : Option Json) (post : Json → Except OpError α) :
    inertiaOnNewCalls (requestThen url method inertiaAccept body post) := by
  intro s c hc
  rw [requestThen_calls] at hc
  rcases List.mem_append.mp hc with h | h
  · exact Or.inl h
  · right
    rw [List.mem_singleton] at h
    subst h
    exact List.mem_singleton.mpr rfl

theorem inertiaOnNewCalls_andThen {α β : Type} (x : RestM α)
    (f : α → RestM β) (hx : inertiaOnNewCalls x)
    (hf : ∀ a, inertiaOnNewCalls (f a)) :
    inertiaOnNewCalls (RestM.andThen x f) := by
  intro s c hc
  rcases hrun : x s with ⟨res, s1⟩
  cases res with
  | error e =>
    rw [RestM.andThen_propagates_error x f s s1 e hrun] at hc
    exact hx s c (by rw [hrun]; exact hc)
  | ok a =>
    rw [RestM.andThen_feeds_ok x f s s1 a hrun] at hc
    rcases hf a s1 c hc with h | h
    · exact hx s c (by rw [hrun]; exact h)
    · exact Or.inr h

theorem inertiaOnNewCalls_getProject (owner repo : String) (n : Int) :
    inertiaOnNewCalls (getProject owner repo n) := by
  unfold getProject
  apply inertiaOnNewCalls_andThen
  · exact inertiaOnNewCalls_requestThen _ _ _ _
  · intro projects s c hc
    cases hfind : findByNumber projects n with
    | none =>
      rw [hfind] at hc
      exact Or.inl hc
    | some project =>
      rw [hfind] at hc
      exact inertiaOnNewCalls_requestThen _ _ _ _ s c hc

theorem inertiaOnNewCalls_getOrgProject (org : String) (n : Int) :
    inertiaOnNewCalls (getOrgProject org n) := by
  unfold getOrgProject
  apply inertiaOnNewCalls_andThen
  · exact inertiaOnNewCalls_requestThen _ _ _ _
  · intro projects s c hc
    cases hfind : findByNumber projects n with
    | none =>
      rw [hfind] at hc
      exact Or.inl hc
    | some project =>
      rw [hfind] at hc
      exact inertiaOnNewCalls_requestThen _ _ _ _ s c hc

/-- Starting from an empty log, every logged call of the operation
carries the header. -/
theorem inertiaOn_of {α : Type} (m : RestM α) (hm : inertiaOnNewCalls m)
    (script : List RestResp) (c : RestCall)
    (hc : c ∈ (m ⟨script, []⟩).2.calls) :
    (("Accept" : String),
     ("application/vnd.github.inertia-preview+json")) ∈ c.headers := by
  rcases hm ⟨script, []⟩ c hc with h | h
  · exact absurd h (List.not_mem_nil c)
  · exact h

/-- C8: every classic project, column and card operation — repository
level and organization level alike — sends the deprecated-feature
content-negotiation header `application/vnd.github.inertia-preview+json`
on every outbound request it makes. -/
theorem spec_C8_inertia_header_everywhere :
    (∀ (owner repo : String) (options : ListProjectsOptions)
        (script : List RestResp) (c : RestCall),
        c ∈ (listProjects owner repo options ⟨script, []⟩).2.calls →
        (("Accept" : String),
         ("application/vnd.github.inertia-preview+json")) ∈ c.headers)
    ∧ (∀ (owner repo : String) (options : CreateProjectOptions)
        (script : List RestResp) (c : RestCall),
        c ∈ (createProject owner repo options ⟨script, []⟩).2.calls →
        (("Accept" : String),
         ("application/vnd.github.inertia-preview+json")) ∈ c.headers)
    ∧ (∀ (owner repo : String) (n : Int) (script : List RestResp)
        (c : RestCall),
        c ∈ (getProject owner repo n ⟨script, []⟩).2.calls →
        (("Accept" : String),
         ("application/vnd.github.inertia-preview+json")) ∈ c.headers)
    ∧ (∀ (owner repo : String) (n : Int)
        (options : UpdateProjectOptions) (script : List RestResp)
        (c : RestCall),
        c ∈ (updateProject owner repo n options ⟨script, []⟩).2.calls →
        (("Accept" : String),
         ("application/vnd.github.inertia-preview+json")) ∈ c.headers)
    ∧ (∀ (owner repo : String) (n : Int) (script : List RestResp)
        (c : RestCall),
        c ∈ (deleteProject owner repo n ⟨script, []⟩).2.calls →
        (("Accept" : String),
         ("application/vnd.github.inertia-preview+json")) ∈ c.headers)
    ∧ (∀ (owner repo : String) (n : Int) (options : PageOptions)
        (script : List RestResp) (c : RestCall),
        c ∈ (listProjectColumns owner repo n options
            ⟨script, []⟩).2.calls →
        (("Accept" : String),
         ("application/vnd.github.inertia-preview+json")) ∈ c.headers)
    ∧ (∀ (owner repo : String) (n : Int) (name : String)
        (script : List RestResp) (c : RestCall),
        c ∈ (createProjectColumn owner repo n name
            ⟨script, []⟩).2.calls →
        (("Accept" : String),
         ("application/vnd.github.inertia-preview+json")) ∈ c.headers)
    ∧ (∀ (columnId : Int) (name : String) (script : List RestResp)
        (c : RestCall),
        c ∈ (updateProjectColumn columnId name ⟨script, []⟩).2.calls →
        (("Accept" : String),
         ("application/vnd.github.inertia-preview+json")) ∈ c.headers)
    ∧ (∀ (columnId : Int) (script : List RestResp) (c : RestCall),
        c ∈ (deleteProjectColumn columnId ⟨script, []⟩).2.calls →
        (("Accept" : String),
         ("application/vnd.github.inertia-preview+json")) ∈ c.headers)
    ∧ (∀ (columnId : Int) (options : ListCardsOptions)
        (script : List RestResp) (c : RestCall),
        c ∈ (listProjectCards columnId options ⟨script, []⟩).2.calls →
        (("Accept" : String),
         ("application/vnd.github.inertia-preview+json")) ∈ c.headers)
    ∧ (∀ (columnId : Int) (options : CreateCardOptions)
        (script : List RestResp) (c : RestCall),
        c ∈ (createProjectCard columnId options ⟨script, []⟩).2.calls →
        (("Accept" : String),
         ("application/vnd.github.inertia-preview+json")) ∈ c.headers)
    ∧ (∀ (cardId : Int) (options : UpdateCardOptions)
        (script : List RestResp) (c : RestCall),
        c ∈ (updateProjectCard cardId options ⟨script, []⟩).2.calls →
        (("Accept" : String),
         ("application/vnd.github.inertia-preview+json")) ∈ c.headers)
    ∧ (∀ (cardId : Int) (script : List RestResp) (c : RestCall),
        c ∈ (deleteProjectCard cardId ⟨script, []⟩).2.calls →
        (("Accept" : String),
         ("application/vnd.github.inertia-preview+json")) ∈ c.headers)
    ∧ (∀ (cardId : Int) (position : String) (columnId : Option Int)
        (script : List RestResp) (c : RestCall),
        c ∈ (moveProjectCard cardId position columnId
            ⟨script, []⟩).2.calls →
        (("Accept" : String),
         ("application/vnd.github.inertia-preview+json")) ∈ c.headers)
    ∧ (∀ (org : String) (options : ListProjectsOptions)
        (script : List RestResp) (c : RestCall),
        c ∈ (listOrgProjects org options ⟨script, []⟩).2.calls →
        (("Accept" : String),
         ("application/vnd.github.inertia-preview+json")) ∈ c.headers)
    ∧ (∀ (org : String) (options : CreateProjectOptions)
        (script : List RestResp) (c : RestCall),
        c ∈ (createOrgProject org options ⟨script, []⟩).2.calls →
        (("Accept" : String),
         ("application/vnd.github.inertia-preview+json")) ∈ c.headers)
    ∧ (∀ (org : String) (n : Int) (script : List RestResp)
        (c : RestCall),
        c ∈ (getOrgProject org n ⟨script, []⟩).2.calls →
        (("Accept" : String),
         ("application/vnd.github.inertia-preview+json")) ∈ c.headers)
    ∧ (∀ (org : String) (n : Int) (options : UpdateProjectOptions)
        (script : List RestResp) (c : RestCall),
        c ∈ (updateOrgProject org n options ⟨script, []⟩).2.calls →
        (("Accept" : String),
         ("application/vnd.github.inertia-preview+json")) ∈ c.headers)
    ∧ (∀ (org : String) (n : Int) (script : List RestResp)
        (c : RestCall),
        c ∈ (deleteOrgProject org n ⟨script, []⟩).2.calls →
        (("Accept" : String),
         ("application/vnd.github.inertia-preview+json")) ∈ c.headers)
    ∧ (∀ (org : String) (n : Int) (options : PageOptions)
        (script : List RestResp) (c : RestCall),
        c ∈ (listOrgProjectColumns org n options ⟨script, []⟩).2.calls →
        (("Accept" : String),
         ("application/vnd.github.inertia-preview+json")) ∈ c.headers)
    ∧ (∀ (org : String) (n : Int) (name : String)
        (script : List RestResp) (c : RestCall),
        c ∈ (createOrgProjectColumn org n name ⟨script, []⟩).2.calls →
        (("Accept" : String),
         ("application/vnd.github.inertia-preview+json")) ∈ c.headers)
    ∧ (∀ (columnId : Int) (name : String) (script : List RestResp)
        (c : RestCall),
        c ∈ (updateOrgProjectColumn columnId name ⟨script, []⟩).2.calls →
        (("Accept" : String),
         ("application/vnd.github.inertia-preview+json")) ∈ c.headers)
    ∧ (∀ (columnId : Int) (script : List RestResp) (c : RestCall),
        c ∈ (deleteOrgProjectColumn columnId ⟨script, []⟩).2.calls →
        (("Accept" : String),
         ("application/vnd.github.inertia-preview+json")) ∈ c.headers)
    ∧ (∀ (columnId : Int) (options : ListCardsOptions)
        (script : List RestResp) (c : RestCall),
        c ∈ (listOrgProjectCards columnId options ⟨script, []⟩).2.calls →
        (("Accept" : String),
         ("application/vnd.github.inertia-preview+json")) ∈ c.headers)
    ∧ (∀ (columnId : Int) (options : CreateCardOptions)
        (script : List RestResp) (c : RestCall),
        c ∈ (createOrgProjectCard columnId options ⟨script, []⟩).2.calls →
        (("Accept" : String),
         ("application/vnd.github.inertia-preview+json")) ∈ c.headers)
    ∧ (∀ (cardId : Int) (options : UpdateCardOptions)
        (script : List RestResp) (c : RestCall),
        c ∈ (updateOrgProjectCard cardId options ⟨script, []⟩).2.calls →
        (("Accept" : String),
         ("application/vnd.github.inertia-preview+json")) ∈ c.headers)
    ∧ (∀ (cardId : Int) (script : List RestResp) (c : RestCall),
        c ∈ (deleteOrgProjectCard cardId ⟨script, []⟩).2.calls →
        (("Accept" : String),
         ("application/vnd.github.inertia-preview+json")) ∈ c.headers)
    ∧ (∀ (cardId : Int) (position : String) (columnId : Option Int)
        (script : List RestResp) (c : RestCall),
        c ∈ (moveOrgProjectCard cardId position columnId
            ⟨script, []⟩).2.calls →
        (("Accept" : String),
         ("application/vnd.github.inertia-preview+json")) ∈ c.headers) := by
  refine ⟨?_, ?_, ?_, ?_, ?_, ?_, ?_, ?_, ?_, ?_, ?_, ?_, ?_, ?_, ?_, ?_,
    ?_, ?_, ?_, ?_, ?_, ?_, ?_, ?_, ?_, ?_, ?_, ?_⟩
  · intro owner repo options script c hc
    exact inertiaOn_of _ (inertiaOnNewCalls_requestThen _ _ _ _) script c hc
  · intro owner repo options script c hc
    exact inertiaOn_of _ (inertiaOnNewCalls_requestThen _ _ _ _) script c hc
  · intro owner repo n script c hc
    exact inertiaOn_of _ (inertiaOnNewCalls_getProject owner repo n)
      script c hc
  · intro owner repo n options script c hc
    exact inertiaOn_of _
      (inertiaOnNewCalls_andThen _ _
        (inertiaOnNewCalls_getProject owner repo n)
        (fun project => inertiaOnNewCalls_requestThen _ _ _ _))
      script c hc
  · intro owner repo n script c hc
    exact inertiaOn_of _
      (inertiaOnNewCalls_andThen _ _
        (inertiaOnNewCalls_getProject owner repo n)
        (fun project => inertiaOnNewCalls_requestThen _ _ _ _))
      script c hc
  · intro owner repo n options script c hc
    exact inertiaOn_of _
      (inertiaOnNewCalls_andThen _ _
        (inertiaOnNewCalls_getProject owner repo n)
        (fun project => inertiaOnNewCalls_requestThen _ _ _ _))
      script c hc
  · intro owner repo n name script c hc
    exact inertiaOn_of _
      (inertiaOnNewCalls_andThen _ _
        (inertiaOnNewCalls_getProject owner repo n)
        (fun project => inertiaOnNewCalls_requestThen _ _ _ _))
      script c hc
  · intro columnId name script c hc
    exact inertiaOn_of _ (inertiaOnNewCalls_requestThen _ _ _ _) script c hc
  · intro columnId script c hc
    exact inertiaOn_of _ (inertiaOnNewCalls_requestThen _ _ _ _) script c hc
  · intro columnId options script c hc
    exact inertiaOn_of _ (inertiaOnNewCalls_requestThen _ _ _ _) script c hc
  · intro columnId options script c hc
    exact inertiaOn_of _ (inertiaOnNewCalls_requestThen _ _ _ _) script c hc
  · intro cardId options script c hc
    exact inertiaOn_of _ (inertiaOnNewCalls_requestThen _ _ _ _) script c hc
  · intro cardId script c hc
    exact inertiaOn_of _ (inertiaOnNewCalls_requestThen _ _ _ _) script c hc
  · intro cardId position columnId script c hc
    exact inertiaOn_of _ (inertiaOnNewCalls_requestThen _ _ _ _) script c hc
  · intro org options script c hc
    exact inertiaOn_of _ (inertiaOnNewCalls_requestThen _ _ _ _) script c hc
  · intro org options script c hc
    exact inertiaOn_of _ (inertiaOnNewCalls_requestThen _ _ _ _) script c hc
  · intro org n script c hc
    exact inertiaOn_of _ (inertiaOnNewCalls_getOrgProject org n) script c hc
  · intro org n options script c hc
    exact inertiaOn_of _
      (inertiaOnNewCalls_andThen _ _
        (inertiaOnNewCalls_getOrgProject org n)
        (fun project => inertiaOnNewCalls_requestThen _ _ _ _))
      script c hc
  · intro org n script c hc
    exact inertiaOn_of _
      (inertiaOnNewCalls_andThen _ _
        (inertiaOnNewCalls_getOrgProject org n)
        (fun project => inertiaOnNewCalls_requestThen _ _ _ _))
      script c hc
  · intro org n options script c hc
    exact inertiaOn_of _
      (inertiaOnNewCalls_andThen _ _
        (inertiaOnNewCalls_getOrgProject org n)
        (fun project => inertiaOnNewCalls_requestThen _ _ _ _))
      script c hc
  · intro org n name script c hc
    exact inertiaOn_of _
      (inertiaOnNewCalls_andThen _ _
        (inertiaOnNewCalls_getOrgProject org n)
        (fun project => inertiaOnNewCalls_requestThen _ _ _ _))
      script c hc
  · intro columnId name script c hc
    exact inertiaOn_of _ (inertiaOnNewCalls_requestThen _ _ _ _) script c hc
  · intro columnId script c hc
    exact inertiaOn_of _ (inertiaOnNewCalls_requestThen _ _ _ _) script c hc
  · intro columnId options script c hc
    exact inertiaOn_of _ (inertiaOnNewCalls_requestThen _ _ _ _) script c hc
  · intro columnId options script c hc
    exact inertiaOn_of _ (inertiaOnNewCalls_requestThen _ _ _ _) script c hc
  · intro cardId options script c hc
    exact inertiaOn_of _ (inertiaOnNewCalls_requestThen _ _ _ _) script c hc
  · intro cardId script c hc
    exact inertiaOn_of _ (inertiaOnNewCalls_requestThen _ _ _ _) script c hc
  · intro cardId position columnId script c hc
    exact inertiaOn_of _ (inertiaOnNewCalls_requestThen _ _ _ _) script c hc

/-- Witness for C8 at two concrete operations: the repository project
listing and the organization card move both log exactly one call, and
the theorem yields the header for it. -/
theorem spec_C8_witness :
    (listProjects ("octo") ("repo") ⟨none, none, none⟩ ⟨[], []⟩).2.calls
      = [⟨("https://api.github.com/repos/octo/repo/projects"), ("GET"),
          inertiaAccept, none⟩]
    ∧ (("Accept" : String),
       ("application/vnd.github.inertia-preview+json"))
      ∈ (⟨("https://api.github.com/repos/octo/repo/projects"), ("GET"),
          inertiaAccept, none⟩ : RestCall).headers
    ∧ (moveOrgProjectCard 9 ("bottom") none ⟨[], []⟩).2.calls
      = [⟨("https://api.github.com/projects/cards/9/moves"), ("POST"),
          inertiaAccept,
          some (Json.obj [(("position" : String),
            Json.str ("bottom"))])⟩]
    ∧ (("Accept" : String),
       ("application/vnd.github.inertia-preview+json"))
      ∈ (⟨("https://api.github.com/projects/cards/9/moves"), ("POST"),
          inertiaAccept,
          some (Json.obj [(("position" : String),
            Json.str ("bottom"))])⟩ : RestCall).headers :=
  ⟨rfl,
   spec_C8_inertia_header_everywhere.1 ("octo") ("repo") ⟨none, none, none⟩
     [] ⟨("https://api.github.com/repos/octo/repo/projects"), ("GET"),
       inertiaAccept, none⟩ (List.mem_singleton.mpr rfl),
   rfl,
   spec_C8_inertia_header_everywhere.2.2.2.2.2.2.2.2.2.2.2.2.2.2.2.2.2.2.2.2.2.2.2.2.2.2.2
     9 ("bottom") none []
     ⟨("https://api.github.com/projects/cards/9/moves"), ("POST"),
       inertiaAccept,
       some (Json.obj [(("position" : String), Json.str ("bottom"))])⟩
     (List.mem_singleton.mpr rfl)⟩

/-! ## Claims about the classic project lookup -/

/-- When the first (default) page of the repository project listing
parses but holds no project with the requested number, `getProject`
stops with the not-found error after that single request. -/
theorem getProject_firstPageMiss (owner repo : String) (n : Int)
    (projects : Json) (rest : List RestResp)
    (hprojects : checkArrayOf checkGitHubProject projects = true)
    (hfind : findByNumber projects n = none) :
    getProject owner repo n ⟨.success projects :: rest, []⟩
      = (.error (.opError
          (((("Project number ") ++ toString n)
            ++ (" not found in repository "))
            ++ ((owner ++ ("/")) ++ repo))),
         ⟨rest,
          [⟨(((("https://api.github.com/repos/") ++ owner)
              ++ (("/") ++ repo)) ++ ("/projects")), ("GET"),
            inertiaAccept, none⟩]⟩) := by
  have hl : listProjects owner repo ⟨none, none, none⟩
      ⟨.success projects :: rest, []⟩
      = (.ok projects,
         ⟨rest,
          [⟨(((("https://api.github.com/repos/") ++ owner)
              ++ (("/") ++ repo)) ++ ("/projects")), ("GET"),
            inertiaAccept, none⟩]⟩) := by
    unfold listProjects requestChecked
    rw [requestThen_cons]
    simp only [hprojects]
    rfl
  unfold getProject
  rw [RestM.andThen_feeds_ok _ _ _ _ projects hl]
  rw [hfind]

/-- C10: `getProject` issues, first, the bare default listing request —
its URL carries no page or per_page parameter — and scans only that one
page; when the page parses but lacks the number, the operation (and
`updateProject` and `deleteProject`, which run `getProject` first)
fails not-found after exactly that single request, with the rest of the
script untouched. -/
theorem spec_C10_single_page_lookup :
    (∀ (owner repo : String) (n : Int) (script : List RestResp),
      ∃ tail, (getProject owner repo n ⟨script, []⟩).2.calls
        = ⟨(((("https://api.github.com/repos/") ++ owner)
            ++ (("/") ++ repo)) ++ ("/projects")), ("GET"),
           inertiaAccept, none⟩ :: tail)
    ∧ (∀ (owner repo : String) (n : Int) (projects : Json)
        (rest : List RestResp),
        checkArrayOf checkGitHubProject projects = true →
        findByNumber projects n = none →
        getProject owner repo n ⟨.success projects :: rest, []⟩
          = (.error (.opError
              (((("Project number ") ++ toString n)
                ++ (" not found in repository "))
                ++ ((owner ++ ("/")) ++ repo))),
             ⟨rest,
              [⟨(((("https://api.github.com/repos/") ++ owner)
                  ++ (("/") ++ repo)) ++ ("/projects")), ("GET"),
                inertiaAccept, none⟩]⟩))
    ∧ (∀ (owner repo : String) (n : Int)
        (options : UpdateProjectOptions) (projects : Json)
        (rest : List RestResp),
        checkArrayOf checkGitHubProject projects = true →
        findByNumber projects n = none →
        updateProject owner repo n options
            ⟨.success projects :: rest, []⟩
          = (.error (.opError
              (((("Project number ") ++ toString n)
                ++ (" not found in repository "))
                ++ ((owner ++ ("/")) ++ repo))),
             ⟨rest,
              [⟨(((("https://api.github.com/repos/") ++ owner)
                  ++ (("/") ++ repo)) ++ ("/projects")), ("GET"),
                inertiaAccept, none⟩]⟩))
    ∧ (∀ (owner repo : String) (n : Int) (projects : Json)
        (rest : List RestResp),
        checkArrayOf checkGitHubProject projects = true →
        findByNumber projects n = none →
        deleteProject owner repo n ⟨.success projects :: rest, []⟩
          = (.error (.opError
              (((("Project number ") ++ toString n)
                ++ (" not found in repository "))
                ++ ((owner ++ ("/")) ++ repo))),
             ⟨rest,
              [⟨(((("https://api.github.com/repos/") ++ owner)
                  ++ (("/") ++ repo)) ++ ("/projects")), ("GET"),
                inertiaAccept, none⟩]⟩)) := by
  refine ⟨?_, ?_, ?_, ?_⟩
  · intro owner repo n script
    unfold getProject
    rcases hl : listProjects owner repo ⟨none, none, none⟩
        ⟨script, []⟩ with ⟨res, s1⟩
    have hcalls : s1.calls
        = [⟨(((("https://api.github.com/repos/") ++ owner)
            ++ (("/") ++ repo)) ++ ("/projects")), ("GET"),
           inertiaAccept, none⟩] := by
      have h2 : (listProjects owner repo ⟨none, none, none⟩
            ⟨script, []⟩).2.calls
          = [] ++ [⟨(((("https://api.github.com/repos/") ++ owner)
              ++ (("/") ++ repo)) ++ ("/projects")), ("GET"),
             inertiaAccept, none⟩] := requestThen_calls _ _ _ _ _ _
      rw [hl] at h2
      exact h2
    cases res with
    | error e =>
      rw [RestM.andThen_propagates_error _ _ _ _ e hl]
      exact ⟨[], by rw [hcalls]⟩
    | ok projects =>
      rw [RestM.andThen_feeds_ok _ _ _ _ projects hl]
      cases hfind : findByNumber projects n with
      | none => exact ⟨[], hcalls⟩
      | some project =>
        refine ⟨[⟨((project.get ("url")).asString), ("GET"),
          inertiaAccept, none⟩], ?_⟩
        have h3 : (projectUrlFetch project s1).2.calls
            = s1.calls ++ [⟨((project.get ("url")).asString), ("GET"),
              inertiaAccept, none⟩] := requestThen_calls _ _ _ _ _ _
        have h4 : (projectUrlFetch project s1).2.calls
            = ⟨(((("https://api.github.com/repos/") ++ owner)
                ++ (("/") ++ repo)) ++ ("/projects")), ("GET"),
               inertiaAccept, none⟩
              :: [⟨((project.get ("url")).asString), ("GET"),
                inertiaAccept, none⟩] := by
          rw [h3, hcalls]
          rfl
        exact h4
  · intro owner repo n projects rest hprojects hfind
    exact getProject_firstPageMiss owner repo n projects rest hprojects
      hfind
  · intro owner repo n options projects rest hprojects hfind
    unfold updateProject
    exact RestM.andThen_propagates_error _ _ _ _ _
      (getProject_firstPageMiss owner repo n projects rest hprojects hfind)
  · intro owner repo n projects rest hprojects hfind
    unfold deleteProject
    exact RestM.andThen_propagates_error _ _ _ _ _
      (getProject_firstPageMiss owner repo n projects rest hprojects hfind)

/-- Witness for C10: an empty (but well-formed) first page and project
number 5 — the lookup and both dependent operations stop after the one
parameterless listing request. -/
theorem spec_C10_witness :
    getProject ("octo") ("repo") 5
        ⟨[RestResp.success (Json.arr [])], []⟩
      = (.error (.opError
          ("Project number 5 not found in repository octo/repo")),
         ⟨[], [⟨("https://api.github.com/repos/octo/repo/projects"),
           ("GET"), inertiaAccept, none⟩]⟩)
    ∧ updateProject ("octo") ("repo") 5 ⟨some ("x"), none, none⟩
        ⟨[RestResp.success (Json.arr [])], []⟩
      = (.error (.opError
          ("Project number 5 not found in repository octo/repo")),
         ⟨[], [⟨("https://api.github.com/repos/octo/repo/projects"),
           ("GET"), inertiaAccept, none⟩]⟩)
    ∧ deleteProject ("octo") ("repo") 5
        ⟨[RestResp.success (Json.arr [])], []⟩
      = (.error (.opError
          ("Project number 5 not found in repository octo/repo")),
         ⟨[], [⟨("https://api.github.com/repos/octo/repo/projects"),
           ("GET"), inertiaAccept, none⟩]⟩) :=
  ⟨spec_C10_single_page_lookup.2.1 ("octo") ("repo") 5 (Json.arr []) []
     rfl rfl,
   spec_C10_single_page_lookup.2.2.1 ("octo") ("repo") 5
     ⟨some ("x"), none, none⟩ (Json.arr []) [] rfl rfl,
   spec_C10_single_page_lookup.2.2.2 ("octo") ("repo") 5 (Json.arr []) []
     rfl rfl⟩
